import Mathlib

/-!
Shallow embedding of the MagnaChain branch-chain validation code
(src/chain/branchchain.cpp and the miner signing code) and proofs about it.

Modelling conventions, used consistently below:

* `uint256`, `uint160` and other byte arrays are lists of naturals (`Bytes`).
* Cryptographic primitives that live outside the translated sources
  (double-SHA256 transaction hashing, script solving and signature checking,
  the key store, contract execution) are fields of an explicit `Env` record;
  the validators are functions of such an environment.  Validator claims are
  then statements about every environment, and witnesses instantiate one.
* A JSON-RPC reply is a record of the fields the validator inspects; the
  transport itself is outside the translated sources.
* Rejections carry the DoS score, the reject category and the reason string
  of the source, so that INVALID versus DUPLICATE rejections are
  distinguishable in theorems.  A bare `return false` or `return error(...)`
  in the source (no `state` update) is `ChkResult.err`.
-/

abbrev Bytes : Type := List Nat

/-- `uint256` values (block hashes, txids, branch hashes) as byte lists. -/
abbrev H256 : Type := List Nat

/-- The null `uint256` (32 zero bytes). -/
def nullHash : H256 := List.replicate 32 0

/-- Chain identifiers: `CellBaseChainParams::MAIN` (the string "main") or a
branch id, which is the hex form of a 32-byte hash.  No 32-byte hash prints
as the string "main", so the two constructors are disjoint, as in the code. -/
inductive ChainId
  | main
  | branch (h : Bytes)
deriving DecidableEq, Repr

/-- Transaction kinds, from the `nVersion`-based `Is...` predicates of
`CellTransaction`.  The kinds are mutually exclusive in the source because
they compare one `nVersion` field against distinct constants. -/
inductive TxType
  | normal
  | coinbase
  | branchCreate
  | transStep1
  | transStep2
  | syncBranchInfo
  | mortgage
  | redeemMortgageStatement
  | report
  | prove
  | reportReward
  | lockMortgageMineCoin
  | unlockMortgageMineCoin
  | publishContract
  | callContract
deriving DecidableEq, Repr

/-- The script opcodes inspected by branchchain.cpp.  A data push appears to
`GetOp` as a push opcode (modelled by `OP_PUSH`) together with the pushed
bytes.  `OP_OTHER` stands for every other opcode. -/
inductive OpCode
  | OP_RETURN
  | OP_TRANS_BRANCH
  | OP_CREATE_BRANCH
  | OP_MINE_BRANCH_MORTGAGE
  | OP_MINE_BRANCH_COIN
  | OP_REDEEM_MORTGAGE
  | OP_2DROP
  | OP_DUP
  | OP_HASH160
  | OP_CONTRACT
  | OP_PUSH
  | OP_OTHER (n : Nat)
deriving DecidableEq, Repr

/-- One element of a script: a plain opcode or a data push. -/
inductive ScriptElem
  | op (c : OpCode)
  | push (d : Bytes)
deriving DecidableEq, Repr

abbrev Script : Type := List ScriptElem

/-- `CellScript::GetOp`: read the next opcode and its pushed data, returning
the remaining script.  On a push the returned opcode is the push opcode. -/
def getOp : Script → Option (OpCode × Bytes × Script)
  | [] => none
  | .op c :: r => some (c, [], r)
  | .push d :: r => some (.OP_PUSH, d, r)

/-- Iterate `getOp` a number of times, keeping only the rest of the script. -/
def skipOps : Nat → Script → Option Script
  | 0, s => some s
  | n + 1, s =>
    match getOp s with
    | some (_, _, r) => skipOps n r
    | none => none

/-- Little-endian byte-list value. -/
def bytesLE : Bytes → Nat
  | [] => 0
  | b :: r => b % 256 + 256 * bytesLE r

/-- Modelled from the spec: the `GetScriptInt64` helper (declared outside
the provided sources) decodes the `OP_BLOCK_HIGH` int64 height pushed in a
mortgage script: a little-endian script number of at most 8 bytes whose top
bit of the last byte is the sign; larger pushes throw, which the callers
turn into failure (`none`). -/
def decodeScriptNum (d : Bytes) : Int :=
  match d.getLast? with
  | none => 0
  | some last =>
    if last % 256 ≥ 128 then
      -(((bytesLE d.dropLast) + 256 ^ d.dropLast.length * (last % 256 - 128) : Nat) : Int)
    else (bytesLE d : Int)

/-- Modelled from the spec: `GetScriptInt64` succeeds only on a data push of
at most 8 bytes (the block height of the mortgage scripts). -/
def getScriptInt64 (c : OpCode) (d : Bytes) : Option Int :=
  if c = OpCode.OP_PUSH then
    if d.length ≤ 8 then some (decodeScriptNum d) else none
  else none

/-- Association-list lookup, used for every `std::map` of the sources. -/
def lookupKV {α β : Type} [DecidableEq α] : List (α × β) → α → Option β
  | [], _ => none
  | (k, v) :: r, a => if a = k then some v else lookupKV r a

/-- Result of `CheckSpvProof` style extraction of a partial merkle tree.
Modelled from the spec: `CellPartialMerkleTree::ExtractMatches` (primitives,
outside the provided sources) yields the recomputed merkle root and the
matched (hash, index) pairs, in order. -/
structure PmtData where
  extractedRoot : H256
  matched : List (H256 × Nat)
deriving DecidableEq, Repr

/-- `CellSpvProof`: a block hash together with a partial merkle tree. -/
structure SpvProof where
  blockhash : H256
  pmt : PmtData
deriving DecidableEq, Repr

/-- The default-constructed `CellSpvProof()` used by `RevertTransaction`. -/
def emptySpvProof : SpvProof :=
  { blockhash := nullHash, pmt := { extractedRoot := nullHash, matched := [] } }

/-- `ReportType` of report and prove payloads. -/
inductive ReportType
  | reportTx
  | reportCoinbase
  | reportMerkletree
  | reportContractData
  | other (n : Nat)
deriving DecidableEq, Repr

/-- Serialized code of a report type, used by the flag-hash streams. -/
def ReportType.serCode : ReportType → Nat
  | .reportTx => 1
  | .reportCoinbase => 2
  | .reportMerkletree => 3
  | .reportContractData => 4
  | .other n => 5 + n

/-- `RP_FLAG_REPORTED` / `RP_FLAG_PROVED` of the report-flag table. -/
inductive RPFlag
  | reported
  | proved
deriving DecidableEq, Repr

structure OutPoint where
  hash : H256
  n : Nat
deriving DecidableEq, Repr

structure TxIn where
  prevout : OutPoint
  scriptSig : Script
deriving DecidableEq, Repr

structure TxOut where
  nValue : Int
  scriptPubKey : Script
deriving DecidableEq, Repr

def dummyTxOut : TxOut := { nValue := 0, scriptPubKey := [] }

/-- Plain (inner) transactions: the transactions carried inside prove data
and block transaction lists.  Only the fields read by the translated code
are kept. -/
structure BTx where
  txType : TxType
  vin : List TxIn
  vout : List TxOut
  contractAddr : Bytes
  contractOut : Int
deriving DecidableEq, Repr

def dummyBTx : BTx :=
  { txType := TxType.normal, vin := [], vout := [], contractAddr := [], contractOut := 0 }

abbrev BTx.IsCoinBase (t : BTx) : Prop := t.txType = TxType.coinbase
abbrev BTx.IsCallContract (t : BTx) : Prop := t.txType = TxType.callContract
abbrev BTx.IsSmartContract (t : BTx) : Prop :=
  t.txType = TxType.publishContract ∨ t.txType = TxType.callContract

/-- `CellTransaction::GetValueOut`. -/
def BTx.GetValueOut (t : BTx) : Int := (t.vout.map TxOut.nValue).sum

/-- `pReportData` payload of a report transaction. -/
structure ReportData where
  reporttype : ReportType
  reportedBranchId : H256
  reportedBlockHash : H256
  reportedTxHash : H256
deriving DecidableEq, Repr

/-- Where a contract datum was last written: `(blockHash, txIndex)`. -/
structure ContractFrom where
  blockHash : H256
  txIndex : Nat
deriving DecidableEq, Repr

/-- One entry of a contract-data snapshot: provenance plus the bytes. -/
structure ContractDataItem where
  dataSrc : ContractFrom
  dataBytes : Bytes
deriving DecidableEq, Repr

/-- `ContractPrevData`: provenance map plus the contract coins. -/
structure ContractPrevData where
  dataFrom : List (Bytes × ContractFrom)
  coins : Int
deriving DecidableEq, Repr

/-- Contract part of a prove payload (`pProveData->contractData`). -/
structure ContractProveData where
  contractPrevData : List (Bytes × ContractDataItem)
  coins : Int
  prevDataSPV : PmtData
  dataSPV : PmtData
deriving DecidableEq, Repr

/-- One `ProveDataItem`: the block it refers to, the carried transaction
(already deserialized: the stream deserialization is bit-exact and its
failure would throw, aborting validation rather than rejecting), and the
SPV proof. -/
structure ProveDataItem where
  blockHash : H256
  txData : BTx
  pCSP : SpvProof
deriving DecidableEq, Repr

def dummyProveItem : ProveDataItem :=
  { blockHash := [], txData := dummyBTx, pCSP := emptySpvProof }

/-- `pProveData` payload of a prove transaction. -/
structure ProveData where
  provetype : ReportType
  branchId : H256
  blockHash : H256
  txHash : H256
  vtxData : List BTx
  vectProveData : List ProveDataItem
  vecBlockTxProve : List (List ProveDataItem)
  contractData : Option ContractProveData
deriving DecidableEq, Repr

/-- `pBranchBlockData` payload of a sync-branch-info transaction: only the
fields read by the duplicate check. -/
structure BranchBlockInfoData where
  branchID : H256
  headerHash : H256
deriving DecidableEq, Repr

/-- The (outer) transaction record: the union of the fields read by the
translated validators. -/
structure Tx where
  txType : TxType
  vin : List TxIn
  vout : List TxOut
  fromBranchId : ChainId
  sendToBranchid : ChainId
  sendToTxHexData : Bytes
  fromTx : Bytes
  inAmount : Int
  pPMT : SpvProof
  pReportData : Option ReportData
  pProveData : Option ProveData
  pBranchBlockData : Option BranchBlockInfoData
  reporttxid : H256
  provetxid : H256
  coinpreouthash : H256
deriving DecidableEq, Repr

abbrev Tx.IsBranchCreate (t : Tx) : Prop := t.txType = TxType.branchCreate
abbrev Tx.IsBranchChainTransStep1 (t : Tx) : Prop := t.txType = TxType.transStep1
abbrev Tx.IsBranchChainTransStep2 (t : Tx) : Prop := t.txType = TxType.transStep2
abbrev Tx.IsSyncBranchInfo (t : Tx) : Prop := t.txType = TxType.syncBranchInfo
abbrev Tx.IsMortgage (t : Tx) : Prop := t.txType = TxType.mortgage
abbrev Tx.IsReport (t : Tx) : Prop := t.txType = TxType.report
abbrev Tx.IsProve (t : Tx) : Prop := t.txType = TxType.prove
abbrev Tx.IsReportReward (t : Tx) : Prop := t.txType = TxType.reportReward
abbrev Tx.IsLockMortgageMineCoin (t : Tx) : Prop := t.txType = TxType.lockMortgageMineCoin
abbrev Tx.IsUnLockMortgageMineCoin (t : Tx) : Prop := t.txType = TxType.unlockMortgageMineCoin
abbrev Tx.IsSmartContract (t : Tx) : Prop :=
  t.txType = TxType.publishContract ∨ t.txType = TxType.callContract

/-- `CellTransaction::GetValueOut` on the outer transaction type. -/
def Tx.GetValueOut (t : Tx) : Int := (t.vout.map TxOut.nValue).sum

def dummyTx : Tx :=
  { txType := TxType.normal, vin := [], vout := [], fromBranchId := ChainId.main,
    sendToBranchid := ChainId.main, sendToTxHexData := [], fromTx := [], inAmount := 0,
    pPMT := emptySpvProof, pReportData := none, pProveData := none,
    pBranchBlockData := none, reporttxid := [], provetxid := [], coinpreouthash := [] }

/-- A null `CellTxIn` as produced by `RevertTransaction` (null prevout hash,
index 0, empty scriptSig). -/
def nullTxIn : TxIn := { prevout := { hash := nullHash, n := 0 }, scriptSig := [] }

/-- Block header data kept per branch block (`BranchBlockData.header`). -/
structure BlockHeader where
  hashMerkleRoot : H256
  hashMerkleRootWithPrevData : H256
  hashMerkleRootWithData : H256
  blockTime : Int
deriving DecidableEq, Repr

/-- `BranchBlockData` of branchdb: header, height, stake tx and the per-block
report-flag states. -/
structure BranchBlockData where
  header : BlockHeader
  nHeight : Int
  pStakeTx : BTx
  mapReportStatus : List (List Nat × RPFlag)
deriving DecidableEq, Repr

/-- `BranchData`: the known headers of one branch. -/
structure BranchData where
  mapHeads : List (H256 × BranchBlockData)
deriving DecidableEq, Repr

def emptyBranchData : BranchData := { mapHeads := [] }

/-- The branch database (`pBranchDb` without its report-flag table, which is
passed separately where the code reads it). -/
structure BranchDbData where
  branches : List (H256 × BranchData)
deriving DecidableEq, Repr

def emptyBranchDb : BranchDbData := { branches := [] }

abbrev BranchDbData.HasBranchData (db : BranchDbData) (h : H256) : Prop :=
  (lookupKV db.branches h).isSome = true

def BranchDbData.GetBranchData (db : BranchDbData) (h : H256) : BranchData :=
  (lookupKV db.branches h).getD emptyBranchData

/-- Script types returned by the external `Solver` (script/standard). -/
inductive TxnOutType
  | txPubkeyhash
  | txMortgageCoin
  | txPubkey
  | txScripthash
  | txNonstandard
  | txOther (n : Nat)
deriving DecidableEq, Repr

/-- A block, as read by `SignBlock`: its transactions, its signature slot
(`vchBlockSig`, a list of pushed byte vectors), its PoS stake outpoint. -/
structure Block where
  vtx : List BTx
  vchBlockSig : List Bytes
  prevoutStake : OutPoint
  hashMerkleRoot : H256
deriving DecidableEq, Repr

/-- The environment of external primitives consumed by the translated code.
Each field stands for a pure function of the excluded subsystems
(serialization and hashing, script machine, key store, contract VM). -/
structure Env where
  isMainChain : Bool
  selfBranchId : ChainId
  selfBranchHash : H256
  maxMoney : Int
  getHash : Tx → H256
  getHashB : BTx → H256
  decodeHex : Bytes → Option Tx
  combine : H256 → H256 → H256
  isContractScript : Script → Bool
  isContractChange : Script → Bool
  getContractAddr : Script → Option Bytes
  scriptForDest : Bytes → Script
  checkSig : Script → Int → BTx → Nat → Bool
  txHashWithPrevData : H256 → ContractPrevData → H256
  txHashWithData : H256 → Bytes → H256
  executeContract : BTx → Nat → Int → Int → Int → List (Bytes × ContractDataItem) → Option Bytes
  solver : Script → Option (TxnOutType × List Bytes)
  getKey : Bytes → Option Nat
  keySign : Nat → H256 → Option Bytes
  keyPubKey : Nat → Bytes
  hash160 : Bytes → Bytes
  blockNoSigHash : Block → H256

/-- `MoneyRange` of amount.h (`MAX_MONEY` is outside the sources, so it is
an environment constant). -/
abbrev moneyRange (env : Env) (v : Int) : Prop := 0 ≤ v ∧ v ≤ env.maxMoney

/-- Reject categories of `CellValidationState`. -/
inductive RejectCode
  | invalid
  | duplicate
  | nonstandard
deriving DecidableEq, Repr

/-- Validator verdicts.  `dos score code reason` is `state.DoS(score, false,
code, reason)`; `err reason` is a bare `return false` or `return
error(...)` that leaves the validation state untouched. -/
inductive ChkResult
  | ok
  | dos (score : Nat) (code : RejectCode) (reason : String)
  | err (reason : String)
deriving DecidableEq, Repr

/-- `GetBranchChainTransOut` per-output test (branchchain.cpp:373).  With a
branch destination: first opcode `OP_TRANS_BRANCH` and a 32-byte second push
equal to `sendToBranchid`.  With destination MAIN: first opcode `OP_RETURN`
and second opcode `OP_TRANS_BRANCH`. -/
def branchTransOutMatch (sendTo : ChainId) (s : Script) : Bool :=
  match getOp s with
  | none => false
  | some (c1, _, r1) =>
    if sendTo ≠ ChainId.main then
      if c1 = OpCode.OP_TRANS_BRANCH then
        match getOp r1 with
        | some (_, vch, _) =>
          if vch.length = 32 then decide (sendTo = ChainId.branch vch) else false
        | none => false
      else false
    else
      if c1 = OpCode.OP_RETURN then
        match getOp r1 with
        | some (c2, _, _) => decide (c2 = OpCode.OP_TRANS_BRANCH)
        | none => false
      else false

/-- `GetBranchChainTransOut` (branchchain.cpp:373). -/
def GetBranchChainTransOut (t : Tx) : Int :=
  if ¬t.IsBranchChainTransStep1 then 0
  else ((t.vout.filter fun o => branchTransOutMatch t.sendToBranchid o.scriptPubKey).map
          TxOut.nValue).sum

/-- `GetMortgageMineOut` per-output test (branchchain.cpp:410): first opcode
`OP_MINE_BRANCH_MORTGAGE`, or (when `bWithBranchOut`) first opcode
`OP_TRANS_BRANCH` with a 32-byte second push equal to `sendToBranchid`. -/
def mortgageMineOutMatch (bWithBranchOut : Bool) (sendTo : ChainId) (s : Script) : Bool :=
  match getOp s with
  | none => false
  | some (c1, _, r1) =>
    if c1 = OpCode.OP_MINE_BRANCH_MORTGAGE then true
    else if bWithBranchOut ∧ c1 = OpCode.OP_TRANS_BRANCH then
      match getOp r1 with
      | some (_, vch, _) =>
        if vch.length = 32 then decide (sendTo = ChainId.branch vch) else false
      | none => false
    else false

/-- `GetMortgageMineOut` (branchchain.cpp:410). -/
def GetMortgageMineOut (t : Tx) (bWithBranchOut : Bool) : Int :=
  ((t.vout.filter fun o => mortgageMineOutMatch bWithBranchOut t.sendToBranchid o.scriptPubKey).map
      TxOut.nValue).sum

/-- `GetBranchChainOut` (branchchain.cpp:631). -/
def GetBranchChainOut (t : Tx) : Int :=
  if t.IsBranchChainTransStep1 then GetBranchChainTransOut t
  else if t.IsMortgage then GetMortgageMineOut t true
  else 0

/-- Common body of `GetMortgageMineData` / `GetMortgageCoinData`
(branchchain.cpp:533 and 575): marker opcode, a 32-byte hash push, the
height datum, three further elements whose opcodes the source fails to
check (the `!GetOp(...) && opcode != ...` conditions short-circuit so only
the success of `GetOp` matters), and the key-id push.  The returned height
is `none` when the script-number decode of the height datum throws; the
callers that pass a null height pointer ignore it, the others fail on it. -/
def getMortgageParse (marker : OpCode) (s : Script) : Option (Bytes × Bytes × Option Int) :=
  match getOp s with
  | none => none
  | some (c1, _, r1) =>
    if c1 ≠ marker then none
    else
      match getOp r1 with
      | none => none
      | some (_, vch2, r2) =>
        if vch2.length ≠ 32 then none
        else
          match getOp r2 with
          | none => none
          | some (c3, v3, r3) =>
            match skipOps 3 r3 with
            | none => none
            | some r6 =>
              match getOp r6 with
              | none => none
              | some (_, vchK, _) => some (vch2, vchK, getScriptInt64 c3 v3)

/-- `GetMortgageMineData` (branchchain.cpp:533): branch hash, key id, height. -/
def GetMortgageMineData (s : Script) : Option (Bytes × Bytes × Option Int) :=
  getMortgageParse OpCode.OP_MINE_BRANCH_MORTGAGE s

/-- `GetMortgageCoinData` (branchchain.cpp:575): from-txid, key id, height. -/
def GetMortgageCoinData (s : Script) : Option (Bytes × Bytes × Option Int) :=
  getMortgageParse OpCode.OP_MINE_BRANCH_COIN s

/-- `CheckSpvProof` (branchchain.cpp:685): extract the matches of the
partial merkle tree; fail with -1 when the recomputed root differs from the
given merkle root, when the queried hash is not among the matched hashes, or
when more than one index matched; otherwise return the first matched index. -/
def CheckSpvProof (merkleRoot : H256) (pmt : PmtData) (querytxhash : H256) : Int :=
  if pmt.extractedRoot ≠ merkleRoot then -1
  else if querytxhash ∉ pmt.matched.map Prod.fst then -1
  else if 1 < (pmt.matched.map Prod.snd).length then -1
  else ((pmt.matched.map Prod.snd).headD 0 : Nat)

/-- Modelled from the spec: `IsCoinBranchTranScript` (declared outside the
provided sources) recognises the script form marking a branch-recharge coin
output; we model it as a script whose first opcode is the
`OP_TRANS_BRANCH` marker.  `RevertTransaction` and `CheckBranchTransaction`
use the same predicate, which is all the claims depend on. -/
def IsCoinBranchTranScript (s : Script) : Bool :=
  match s with
  | .op OpCode.OP_TRANS_BRANCH :: _ => true
  | _ => false

/-- Clear `vout[0].scriptPubKey` (used by `RevertTransaction` on a mortgage
source). -/
def clearVout0Script : List TxOut → List TxOut
  | [] => []
  | o :: r => { o with scriptPubKey := [] } :: r

/-- `RevertTransaction` (branchchain.cpp:481).  With `fDeepRevert` on a
trans-step2: clear `fromTx`, clear the stake script when the source is a
mortgage, and replace the SPV proof by an empty one when the source chain is
a branch.  Then, independently: for a trans-step2 from a branch, reset the
inputs to the single null input and drop the branch-recharge outputs; for a
smart contract, drop contract inputs and contract-change outputs. -/
def RevertTransaction (env : Env) (tx : Tx) (pFromTx : Option Tx) (fDeepRevert : Bool) : Tx :=
  let mtx :=
    if fDeepRevert ∧ tx.IsBranchChainTransStep2 then
      let m1 : Tx := { tx with fromTx := [] }
      let m2 : Tx :=
        match pFromTx with
        | some f => if f.IsMortgage then { m1 with vout := clearVout0Script m1.vout } else m1
        | none => m1
      if m2.fromBranchId ≠ ChainId.main then { m2 with pPMT := emptySpvProof } else m2
    else tx
  if tx.IsBranchChainTransStep2 ∧ tx.fromBranchId ≠ ChainId.main then
    { mtx with
      vin := [nullTxIn],
      vout := mtx.vout.filter fun o => ¬IsCoinBranchTranScript o.scriptPubKey }
  else if tx.IsSmartContract then
    { mtx with
      vin := mtx.vin.filter fun i => ¬env.isContractScript i.scriptSig,
      vout := mtx.vout.filter fun o => ¬env.isContractChange o.scriptPubKey }
  else mtx

/-- `GetReportTxHashKey` (branchchain.cpp:1100).  The hash-writer stream is
modelled by the serialized item list itself: two streams collide exactly
when their digests do, absent a SHA256 collision.  A non-report transaction
yields the null key (the source returns `uint256()`). -/
def GetReportTxHashKey (tx : Tx) : List Nat :=
  if ¬tx.IsReport then []
  else
    match tx.pReportData with
    | none => []
    | some rd =>
      rd.reporttype.serCode ::
        (if rd.reporttype = ReportType.reportTx ∨ rd.reporttype = ReportType.reportCoinbase
            ∨ rd.reporttype = ReportType.reportMerkletree
            ∨ rd.reporttype = ReportType.reportContractData then
          rd.reportedBranchId ++ rd.reportedBlockHash ++ rd.reportedTxHash
        else [])

/-- `GetProveTxHashKey` (branchchain.cpp:1119).  Serializes the prove type
and, only for the TX / COINBASE / MERKLETREE types, the (branch, block, tx)
identity; note the source does not include `REPORT_CONTRACT_DATA` here. -/
def GetProveTxHashKey (tx : Tx) : List Nat :=
  match tx.pProveData with
  | none => []
  | some pd =>
    pd.provetype.serCode ::
      (if pd.provetype = ReportType.reportTx ∨ pd.provetype = ReportType.reportCoinbase
          ∨ pd.provetype = ReportType.reportMerkletree then
        pd.branchId ++ pd.blockHash ++ pd.txHash
      else [])

/-- Sync-branch-info step of `CheckBranchDuplicateTx` (branchchain.cpp:1138):
`some` is an early rejection. -/
def dupCheckSync (db : BranchDbData) (hasInCache : Bool) (tx : Tx) : Option ChkResult :=
  if tx.IsSyncBranchInfo then
    if hasInCache then some (ChkResult.dos 0 RejectCode.duplicate "branch block info duplicate")
    else
      match tx.pBranchBlockData with
      | none => none
      | some bi =>
        if (lookupKV (db.GetBranchData bi.branchID).mapHeads bi.headerHash).isSome then
          some (ChkResult.dos 0 RejectCode.duplicate "blockheader info has include before")
        else none
  else none

/-- Trans-step2 step of `CheckBranchDuplicateTx` (branchchain.cpp:1150). -/
def dupCheckStep2 (recvRepeat : Bool) (tx : Tx) : Option ChkResult :=
  if tx.IsBranchChainTransStep2 ∧ recvRepeat then
    some (ChkResult.dos 0 RejectCode.duplicate "txn-already-in-records")
  else none

/-- Report step of `CheckBranchDuplicateTx` (branchchain.cpp:1156): any
entry under the report-flag key, in cache or db, is a duplicate. -/
def dupCheckReport (cacheFlags dbFlags : List (List Nat × RPFlag)) (tx : Tx) :
    Option ChkResult :=
  if tx.IsReport then
    if (lookupKV cacheFlags (GetReportTxHashKey tx)).isSome then
      some (ChkResult.dos 0 RejectCode.duplicate "duplicate report in cache")
    else if (lookupKV dbFlags (GetReportTxHashKey tx)).isSome then
      some (ChkResult.dos 0 RejectCode.duplicate "duplicate report in db")
    else none
  else none

/-- Prove step of `CheckBranchDuplicateTx` (branchchain.cpp:1166): only a
PROVED entry under the prove-flag key is a duplicate. -/
def dupCheckProve (cacheFlags dbFlags : List (List Nat × RPFlag)) (tx : Tx) :
    Option ChkResult :=
  if tx.IsProve then
    if lookupKV cacheFlags (GetProveTxHashKey tx) = some RPFlag.proved then
      some (ChkResult.dos 0 RejectCode.duplicate "duplicate prove in cache")
    else if lookupKV dbFlags (GetProveTxHashKey tx) = some RPFlag.proved then
      some (ChkResult.dos 0 RejectCode.duplicate "duplicate prove in db")
    else none
  else none

/-- `CheckBranchDuplicateTx` (branchchain.cpp:1136). -/
def CheckBranchDuplicateTx (db : BranchDbData) (recvRepeat hasInCache : Bool)
    (cacheFlags dbFlags : List (List Nat × RPFlag)) (tx : Tx) : ChkResult :=
  match dupCheckSync db hasInCache tx with
  | some r => r
  | none =>
    match dupCheckStep2 recvRepeat tx with
    | some r => r
    | none =>
      match dupCheckReport cacheFlags dbFlags tx with
      | some r => r
      | none =>
        match dupCheckProve cacheFlags dbFlags tx with
        | some r => r
        | none => ChkResult.ok

/-- Input loop of `CheckTransactionProveWithProveData`
(branchchain.cpp:1245-1300), running over the inputs of the proved
transaction zipped with their prove-data items.  Accumulates the input
amount and the contract input amount; `i` is the input index handed to the
script checker. -/
def checkTxProveInputs (env : Env) (branchData : BranchData) (pProveTx : BTx)
    (contractScript : Script) :
    List (TxIn × ProveDataItem) → Nat → Int → Int → Except ChkResult (Int × Int)
  | [], _, nIn, nCIn => Except.ok (nIn, nCIn)
  | (vin, item) :: rest, i, nIn, nCIn =>
    if (lookupKV branchData.mapHeads item.blockHash).isNone then
      Except.error (ChkResult.dos 0 RejectCode.invalid "proveitem block not exist")
    else
      let pTx := item.txData
      match lookupKV branchData.mapHeads item.pCSP.blockhash with
      | none => Except.error (ChkResult.err "spv block data not found")
      | some pBlockData =>
        if CheckSpvProof pBlockData.header.hashMerkleRoot item.pCSP.pmt (env.getHashB pTx) < 0 then
          Except.error (ChkResult.dos 0 RejectCode.invalid "Check Prove ReportTx spv check fail")
        else if env.getHashB pTx ≠ vin.prevout.hash then
          Except.error (ChkResult.dos 0 RejectCode.invalid "Check Prove ReportTx provide tx not match")
        else if pTx.vout.length ≤ vin.prevout.n then
          Except.error (ChkResult.dos 0 RejectCode.invalid "Check Prove ReportTx outpoint range")
        else
          let spk := (pTx.vout.getD vin.prevout.n dummyTxOut).scriptPubKey
          let amount := (pTx.vout.getD vin.prevout.n dummyTxOut).nValue
          if env.isContractScript spk ∧ spk ≠ contractScript then
            Except.error (ChkResult.dos 0 RejectCode.invalid "Invalid contract inpoint")
          else
            let nIn2 := nIn + amount
            let nCIn2 := if env.isContractScript spk then nCIn + amount else nCIn
            if env.checkSig spk amount pProveTx i then
              checkTxProveInputs env branchData pProveTx contractScript rest (i + 1) nIn2 nCIn2
            else if pProveTx.IsCallContract then
              match env.getContractAddr spk with
              | none =>
                Except.error (ChkResult.dos 0 RejectCode.nonstandard
                  "check smartcontract sign fail, contract addr fail")
              | some a =>
                if a ≠ pProveTx.contractAddr then
                  Except.error (ChkResult.dos 0 RejectCode.invalid
                    "check smartcontract sign fail, contract addr error")
                else
                  checkTxProveInputs env branchData pProveTx contractScript rest (i + 1) nIn2 nCIn2
            else Except.error (ChkResult.dos 0 RejectCode.invalid "CheckProveReportTx scriptcheck fail")

/-- Output loop of `CheckTransactionProveWithProveData`
(branchchain.cpp:1303-1321).  Accumulates the output value and the
contract-change output value, enforcing the per-output and running money
ranges. -/
def checkTxProveOutputs (env : Env) (contractAddr : Bytes) :
    List TxOut → Int → Int → Except ChkResult (Int × Int)
  | [], vOut, cOut => Except.ok (vOut, cOut)
  | o :: rest, vOut, cOut =>
    if o.nValue < 0 then
      Except.error (ChkResult.dos 100 RejectCode.invalid "CheckProveReportTx bad-txns-vout-negative")
    else if o.nValue > env.maxMoney then
      Except.error (ChkResult.dos 100 RejectCode.invalid "CheckProveReportTx bad-txns-vout-toolarge")
    else
      let v2 := vOut + o.nValue
      if ¬moneyRange env v2 then
        Except.error (ChkResult.dos 100 RejectCode.invalid
          "CheckProveReportTx bad-txns-txouttotal-toolarge")
      else if env.isContractChange o.scriptPubKey then
        match env.getContractAddr o.scriptPubKey with
        | none =>
          Except.error (ChkResult.dos 0 RejectCode.invalid "Invalid contract out public key")
        | some a =>
          if a ≠ contractAddr then
            Except.error (ChkResult.dos 0 RejectCode.invalid "Invalid contract out public key")
          else checkTxProveOutputs env contractAddr rest v2 (cOut + o.nValue)
      else checkTxProveOutputs env contractAddr rest v2 cOut

/-- `CheckTransactionProveWithProveData` (branchchain.cpp:1230): validate
one transaction of a branch block against its prove-data items, yielding the
fee it pays (input minus output value). -/
def CheckTransactionProveWithProveData (env : Env) (pProveTx : BTx)
    (vectProveData : List ProveDataItem) (branchData : BranchData) (jumpFrist : Bool) :
    Except ChkResult Int :=
  if pProveTx.IsCoinBase then
    Except.error (ChkResult.dos 0 RejectCode.invalid
      "CheckProveReportTx Prove tx can not a coinbase transaction")
  else
    let baseIndex := if jumpFrist then 1 else 0
    if vectProveData.length ≠ pProveTx.vin.length + baseIndex then
      Except.error (ChkResult.dos 0 RejectCode.invalid
        "vectProveData size invalid for prove each input")
    else
      let contractScript := env.scriptForDest pProveTx.contractAddr
      match checkTxProveInputs env branchData pProveTx contractScript
          (pProveTx.vin.zip (vectProveData.drop baseIndex)) 0 0 0 with
      | Except.error e => Except.error e
      | Except.ok (nInAmount, nContractIn) =>
        match checkTxProveOutputs env pProveTx.contractAddr pProveTx.vout 0 0 with
        | Except.error e => Except.error e
        | Except.ok (nValueOut, nContractOut) =>
          if nContractIn - nContractOut ≠ pProveTx.contractOut then
            Except.error (ChkResult.dos 0 RejectCode.invalid "Contract out not match")
          else if ¬moneyRange env nValueOut then
            Except.error (ChkResult.dos 100 RejectCode.invalid
              "CheckProveReportTx bad-txns-txouttotal-toolarge")
          else if nInAmount < nValueOut then
            Except.error (ChkResult.dos 100 RejectCode.invalid "value in/out error")
          else Except.ok (nInAmount - nValueOut)

/-- One level of the merkle computation: combine adjacent pairs, duplicating
a trailing odd element (without flagging it), and flag mutation when the two
elements of a complete pair are equal. -/
def merklePairStep (env : Env) : List H256 → List H256 × Bool
  | [] => ([], false)
  | [a] => ([env.combine a a], false)
  | a :: b :: r =>
    let rec' := merklePairStep env r
    (env.combine a b :: rec'.1, (decide (a = b) || rec'.2))

theorem merklePairStep_length (env : Env) (l : List H256) :
    (merklePairStep env l).1.length = (l.length + 1) / 2 := by
  induction l using merklePairStep.induct env with
  | case1 => simp [merklePairStep]
  | case2 a => simp [merklePairStep]
  | case3 a b r ih =>
    simp only [merklePairStep, List.length_cons]
    omega

/-- Fuel-driven levels of the merkle computation; each level at least halves
the list, so fuel equal to the list length always suffices. -/
def merkleRootMutAux (env : Env) : Nat → List H256 → H256 × Bool
  | _, [] => (nullHash, false)
  | _, [a] => (a, false)
  | 0, _ :: _ :: _ => (nullHash, false)
  | fuel + 1, a :: b :: r =>
    let lvl := merklePairStep env (a :: b :: r)
    let up := merkleRootMutAux env fuel lvl.1
    (up.1, lvl.2 || up.2)

/-- Modelled from the spec: `VecTxMerkleRoot` (consensus/merkle, outside the
provided sources) recomputes the merkle root of an ordered hash list and
flags mutation (equal adjacent subtrees), as in the Bitcoin-derived
computation the repository inherits. -/
def merkleRootMut (env : Env) (l : List H256) : H256 × Bool :=
  merkleRootMutAux env l.length l

/-- Fee-summing loop of `CheckProveCoinbaseTx` (branchchain.cpp:1457-1467):
validate every transaction after the coinbase and the stake tx with its
prove-data items and sum the fees. -/
def sumFees (env : Env) (branchData : BranchData) :
    List BTx → List (List ProveDataItem) → Except ChkResult Int
  | [], _ => Except.ok 0
  | _ :: _, [] => Except.ok 0
  | t :: ts, p :: ps =>
    match CheckTransactionProveWithProveData env t p branchData false with
    | Except.error e => Except.error e
    | Except.ok fee =>
      match sumFees env branchData ts ps with
      | Except.error e => Except.error e
      | Except.ok rest => Except.ok (fee + rest)

/-- `CheckProveCoinbaseTx` (branchchain.cpp:1410), also used for MERKLETREE
proves: the deserialized ordered transaction list must recompute the stored
branch header merkle root without mutation, every transaction after the
coinbase and stake tx must validate against its prove-data items, and the
coinbase must pay exactly the summed fees. -/
def CheckProveCoinbaseTx (env : Env) (db : BranchDbData) (tx : Tx) : ChkResult :=
  match tx.pProveData with
  | none => ChkResult.err "not a coinbase or merkletree prove"
  | some pd =>
    if ¬tx.IsProve ∨ ¬(pd.provetype = ReportType.reportCoinbase
        ∨ pd.provetype = ReportType.reportMerkletree) then
      ChkResult.err "not a coinbase or merkletree prove"
    else if ¬db.HasBranchData pd.branchId then
      ChkResult.dos 0 RejectCode.invalid "prove coinbase tx no branchid data"
    else
      let branchData := db.GetBranchData pd.branchId
      match lookupKV branchData.mapHeads pd.blockHash with
      | none => ChkResult.dos 0 RejectCode.invalid "prove coinbase tx no block data"
      | some branchblockdata =>
        let vtx := pd.vtxData
        if vtx.length < 2 then ChkResult.dos 100 RejectCode.invalid "invalid vtx size"
        else if pd.provetype = ReportType.reportCoinbase
            ∧ env.getHashB (vtx.headD dummyBTx) ≠ pd.txHash then
          ChkResult.dos 100 RejectCode.invalid "coinbase tx is eq txHash"
        else if pd.provetype = ReportType.reportMerkletree ∧ pd.txHash ≠ nullHash then
          ChkResult.dos 100 RejectCode.invalid "merkle poof txhash is invalid,must null"
        else
          let rm := merkleRootMut env (vtx.map env.getHashB)
          if branchblockdata.header.hashMerkleRoot ≠ rm.1 then
            ChkResult.dos 100 RejectCode.invalid "Invalid merkle tree for vtx"
          else if rm.2 then
            ChkResult.dos 100 RejectCode.invalid "duplicate transaction in vtx"
          else if vtx.length ≠ pd.vecBlockTxProve.length + 2 then
            ChkResult.dos 100 RejectCode.invalid "provide vecblocktxprove size invalid"
          else
            match sumFees env branchData (vtx.drop 2) pd.vecBlockTxProve with
            | Except.error e => e
            | Except.ok totalFee =>
              if (vtx.headD dummyBTx).GetValueOut ≠ totalFee then
                ChkResult.dos 100 RejectCode.invalid
                  "Prove coinbase transaction fail, fee invalid"
              else ChkResult.ok

/-- `CheckProveSmartContract` (branchchain.cpp:1335): SPV-check the proved
transaction hash combined with the supplied previous contract data against
the pre-state merkle root, re-execute the contract, and SPV-check the hash
combined with the resulting final data against the post-state merkle root
at the same transaction index. -/
def CheckProveSmartContract (env : Env) (pd : ProveData) (proveTx : BTx)
    (pBlockData : BranchBlockData) : Bool :=
  match pd.contractData with
  | none => false
  | some cd =>
    let prevData : ContractPrevData :=
      { dataFrom := cd.contractPrevData.map fun kv => (kv.1, kv.2.dataSrc),
        coins := cd.coins }
    let hashWithPrevData := env.txHashWithPrevData (env.getHashB proveTx) prevData
    let txIndex := CheckSpvProof pBlockData.header.hashMerkleRootWithPrevData
        cd.prevDataSPV hashWithPrevData
    if txIndex < 0 then false
    else
      match env.executeContract proveTx txIndex.toNat cd.coins
          pBlockData.header.blockTime pBlockData.nHeight cd.contractPrevData with
      | none => false
      | some finalData =>
        let hashWithData := env.txHashWithData (env.getHashB proveTx) finalData
        let txIndexFinal := CheckSpvProof pBlockData.header.hashMerkleRootWithData
            cd.dataSPV hashWithData
        ¬(txIndexFinal < 0 ∨ txIndexFinal ≠ txIndex)

/-- `CheckProveReportTx` (branchchain.cpp:1368). -/
def CheckProveReportTx (env : Env) (db : BranchDbData) (tx : Tx) : ChkResult :=
  match tx.pProveData with
  | none => ChkResult.err "not a tx prove"
  | some pd =>
    if ¬tx.IsProve ∨ pd.provetype ≠ ReportType.reportTx then ChkResult.err "not a tx prove"
    else if ¬db.HasBranchData pd.branchId then ChkResult.err "no branch data"
    else if pd.vectProveData.length < 1 then
      ChkResult.dos 0 RejectCode.invalid "vectProveData size invalid can not zero"
    else
      let item0 := pd.vectProveData.headD dummyProveItem
      let pProveTx := item0.txData
      if env.getHashB pProveTx ≠ pd.txHash then
        ChkResult.dos 0 RejectCode.invalid
          "Prove tx data error, first tx hashid is not eq proved txid"
      else
        let branchData := db.GetBranchData pd.branchId
        match lookupKV branchData.mapHeads item0.pCSP.blockhash with
        | none => ChkResult.err "no spv block data"
        | some pBlockData =>
          if CheckSpvProof pBlockData.header.hashMerkleRoot item0.pCSP.pmt
              (env.getHashB pProveTx) < 0 then
            ChkResult.dos 0 RejectCode.invalid "Check Prove ReportTx spv check fail"
          else
            match CheckTransactionProveWithProveData env pProveTx pd.vectProveData
                branchData true with
            | Except.error e => e
            | Except.ok _ =>
              if pProveTx.IsSmartContract
                  ∧ ¬CheckProveSmartContract env pd pProveTx pBlockData then
                ChkResult.err "prove smart contract fail"
              else ChkResult.ok

/-- `CheckProveTx` (branchchain.cpp:1530).  The flag tables are in scope in
the source (through `pBranchDb`) but the report-existence check against them
is commented out, so the verdict does not depend on them; the two flag
parameters record exactly that. -/
def CheckProveTx (env : Env) (db : BranchDbData)
    (_cacheFlags _dbFlags : List (List Nat × RPFlag)) (tx : Tx) : ChkResult :=
  if tx.IsProve then
    match tx.pProveData with
    | none => ChkResult.err "null prove data"
    | some pd =>
      if pd.provetype = ReportType.reportTx then CheckProveReportTx env db tx
      else if pd.provetype = ReportType.reportCoinbase then CheckProveCoinbaseTx env db tx
      else if pd.provetype = ReportType.reportMerkletree then CheckProveCoinbaseTx env db tx
      else ChkResult.dos 0 RejectCode.invalid "Invalid report type"
  else ChkResult.ok

/-- The fields of a `getbranchchaintransaction` RPC reply that
`CheckBranchTransaction` inspects.  `hexVal` is `some` when the `hex` field
is a string, `confirmations` is `some` when the field `isNum()`. -/
structure RpcTxReply where
  rpcError : Bool
  hasResult : Bool
  hexVal : Option Bytes
  confirmations : Option Int
deriving DecidableEq, Repr

/-- C++ conversion of an `int` to `uint32_t`, as happens in the comparison
`confirmations.get_int() < maturity + 1` of branchchain.cpp:929, where
`maturity` is declared `uint32_t`. -/
def u32ofInt (i : Int) : Nat := (i % 4294967296).toNat

/-- The mortgage-source stage of `CheckBranchTransaction`
(branchchain.cpp:807-825): extract (keyid, height) from the mortgage mine
script of the source and from the single mortgage-coin output of the step-2,
and require them equal. -/
def cbtMortgageStage (tx pFromTx : Tx) : ChkResult :=
  if ¬pFromTx.IsMortgage then ChkResult.ok
  else
    match GetMortgageMineData (pFromTx.vout.getD 0 dummyTxOut).scriptPubKey with
    | none => ChkResult.dos 100 RejectCode.invalid "invalid mortgage mine script"
    | some (_, keyid1, height1) =>
      if height1.isNone then ChkResult.dos 100 RejectCode.invalid "invalid mortgage mine script"
      else if tx.vout.length ≠ 1 then ChkResult.err "invalid mortgage transaction"
      else
        match GetMortgageCoinData (tx.vout.getD 0 dummyTxOut).scriptPubKey with
        | none => ChkResult.err "invalid mortgage transaction"
        | some (_, keyid2, height2) =>
          if height2.isNone then ChkResult.err "invalid mortgage transaction"
          else if keyid1 ≠ keyid2 ∨ height1 ≠ height2 then
            ChkResult.dos 100 RejectCode.invalid "invalid mortgage coin script"
          else ChkResult.ok

/-- The local stages of `CheckBranchTransaction` (branchchain.cpp:793-871):
type and chain checks, the mortgage stage, the revert-hash comparison
against the transaction decoded from the step-1 `sendToTxHexData`, the
`inAmount` equation against `GetBranchChainOut`, and the outgoing-value
bound. -/
def cbtLocal (env : Env) (tx pFromTx : Tx) : ChkResult :=
  if ¬tx.IsBranchChainTransStep2 then
    ChkResult.dos 100 RejectCode.invalid "is not a IsBranchChainTransStep2"
  else if tx.fromBranchId = env.selfBranchId then
    ChkResult.dos 100 RejectCode.invalid "ctFromChain eq ctToChain"
  else
    match cbtMortgageStage tx pFromTx with
    | ChkResult.ok =>
      match env.decodeHex pFromTx.sendToTxHexData with
      | none => ChkResult.err "sendToTxHexData is not a valid transaction data"
      | some mtxTrans2 =>
        let mtxTrans2my := RevertTransaction env tx (some pFromTx) true
        if env.getHash mtxTrans2 ≠ env.getHash mtxTrans2my then
          ChkResult.dos 100 RejectCode.invalid "transaction hash error"
        else
          let nAmount := GetBranchChainOut pFromTx
          if nAmount ≠ tx.inAmount ∨ ¬moneyRange env tx.inAmount then
            ChkResult.dos 100 RejectCode.invalid "Invalid inAmount"
          else
            let nOrginalOut :=
              if tx.fromBranchId ≠ ChainId.main then
                ((tx.vout.filter fun o => ¬IsCoinBranchTranScript o.scriptPubKey).map
                    TxOut.nValue).sum
              else tx.GetValueOut
            if nOrginalOut > tx.inAmount then
              ChkResult.dos 100 RejectCode.invalid "GetValueOut larger than inAmount"
            else ChkResult.ok
    | e => e

/-- The cross-chain RPC stage of `CheckBranchTransaction`
(branchchain.cpp:890-932): the reply must carry a decodable transaction
whose hash is the step-1 hash, and a numeric confirmations field passing
the (unsigned) maturity comparison. -/
def cbtRpc (env : Env) (reply : RpcTxReply) (maturity : Nat) (pFromTx : Tx) : ChkResult :=
  if reply.rpcError then ChkResult.err "RPC call getbranchchaintransaction fail"
  else if ¬reply.hasResult then
    ChkResult.err "RPC call getbranchchaintransaction fail: result null"
  else
    match reply.hexVal with
    | none =>
      ChkResult.dos 100 RejectCode.invalid "RPC call getbranchchaintransaction tx hex invalid"
    | some hx =>
      match env.decodeHex hx with
      | none =>
        ChkResult.dos 100 RejectCode.invalid
          "RPC call getbranchchaintransaction DecodeHexTx tx hex fail"
      | some mtxTrans1 =>
        if env.getHash mtxTrans1 ≠ env.getHash pFromTx then
          ChkResult.dos 100 RejectCode.invalid "return transaction is not the one that i wanted"
        else
          match reply.confirmations with
          | none => ChkResult.err "RPC confirmations not satisfy"
          | some conf =>
            if u32ofInt conf < (maturity + 1) % 4294967296 then
              ChkResult.err "RPC confirmations not satisfy"
            else ChkResult.ok

/-- `CheckBranchTransaction` (branchchain.cpp:791).  `fVerifingDB` with the
`-uncheckbranchtxinverifydb` flag (default true) short-circuits the RPC
stage; a missing RPC config rejects unless on the main chain with
`-unchecknoconfigbranch`. -/
def CheckBranchTransaction (env : Env) (reply : RpcTxReply)
    (fVerifingDB uncheckInVerifyDb haveRpcConfig uncheckNoConfigBranch : Bool)
    (maturity : Nat) (tx pFromTx : Tx) : ChkResult :=
  match cbtLocal env tx pFromTx with
  | ChkResult.ok =>
    if fVerifingDB ∧ uncheckInVerifyDb then ChkResult.ok
    else if ¬haveRpcConfig then
      if env.isMainChain ∧ uncheckNoConfigBranch then ChkResult.ok
      else ChkResult.dos 1 RejectCode.invalid "can not found branch rpc config"
    else cbtRpc env reply maturity pFromTx
  | e => e

/-- The main-chain context read by `CheckReportRewardTransaction`:
`ReadTxDataByTxIndex` (txid to transaction plus containing block),
`mapBlockIndex` (block hash to height) and membership of the active chain. -/
structure MainChainCtx where
  readTxData : H256 → Option (Tx × H256)
  blockIndexHeight : List (H256 × Int)
  activeChain : List H256
deriving Inhabited

/-- `CheckReportRewardTransaction` (branchchain.cpp:1563).  `pindexHeight`
is the height of the block index handed to the function;
`reportOutOfHeight` is the `REPORT_OUTOF_HEIGHT` constant (declared outside
the provided sources, so kept as a parameter).  The height comparison
translates branchchain.cpp:1586 verbatim:
`rpBlockIndex->nHeight - pindex->nHeight < REPORT_OUTOF_HEIGHT`. -/
def CheckReportRewardTransaction (env : Env) (ctx : MainChainCtx) (db : BranchDbData)
    (reportOutOfHeight : Int) (tx : Tx) (pindexHeight : Int) : ChkResult :=
  if ¬tx.IsReportReward then ChkResult.err "not a report reward tx"
  else if ¬env.isMainChain then
    ChkResult.dos 100 RejectCode.invalid "mainchain-not-accept-reportreward-tx"
  else
    match ctx.readTxData tx.reporttxid with
    | none => ChkResult.err "report tx not exist"
    | some (ptxReport, reporthashBlock) =>
      match ptxReport.pReportData with
      | none => ChkResult.dos 100 RejectCode.invalid "invalid-report-tx"
      | some rd =>
        if ¬ptxReport.IsReport then ChkResult.dos 100 RejectCode.invalid "invalid-report-tx"
        else
          match lookupKV ctx.blockIndexHeight reporthashBlock with
          | none => ChkResult.err "block not exist any more"
          | some rpHeight =>
            if reporthashBlock ∉ ctx.activeChain then
              ChkResult.err "report tx not in active chain"
            else if rpHeight - pindexHeight < reportOutOfHeight then
              ChkResult.dos 100 RejectCode.invalid "Still in prove stage."
            else if ¬db.HasBranchData rd.reportedBranchId then
              ChkResult.err "no branch data"
            else
              let branchdata := db.GetBranchData rd.reportedBranchId
              match lookupKV branchdata.mapHeads rd.reportedBlockHash with
              | none => ChkResult.err "reported block not in mapHeads"
              | some blockdata =>
                let reportFlagHash := GetReportTxHashKey ptxReport
                match lookupKV blockdata.mapReportStatus reportFlagHash with
                | none => ChkResult.err "report flag not found"
                | some fl =>
                  if fl = RPFlag.proved then ChkResult.err "report was proved"
                  else
                    match GetMortgageCoinData
                        (blockdata.pStakeTx.vout.getD 0 dummyTxOut).scriptPubKey with
                    | none => ChkResult.dos 100 RejectCode.invalid "invalid-stake-pubkey"
                    | some (coinfromtxid, _, _) =>
                      if (tx.vin.getD 0 nullTxIn).prevout.hash ≠ coinfromtxid
                          ∨ (tx.vin.getD 0 nullTxIn).prevout.n ≠ 0 then
                        ChkResult.dos 100 RejectCode.invalid "Invalid-report-reward-input"
                      else
                        let nValueIn := (blockdata.pStakeTx.vout.getD 0 dummyTxOut).nValue
                        let reporterAddress := (ptxReport.vout.getD 0 dummyTxOut).scriptPubKey
                        let nReporterValue := nValueIn / 2
                        if (tx.vout.getD 0 dummyTxOut).scriptPubKey ≠ reporterAddress then
                          ChkResult.dos 100 RejectCode.invalid "vout0-must-to-reporter"
                        else if (tx.vout.getD 0 dummyTxOut).nValue < nReporterValue then
                          ChkResult.dos 100 RejectCode.invalid "invalid-reporter-out-value"
                        else ChkResult.ok

/-- Modelled from the spec: `REPORT_LOCK_COIN_HEIGHT = 60` (the constant is
declared in a header outside the provided sources; the spec fixes its value
and its signed comparison against the confirmations count). -/
def REPORT_LOCK_COIN_HEIGHT : Int := 60

/-- The fields of a `getreporttxdata` / `getprovetxdata` RPC reply
inspected by the lock / unlock checks.  `preminecoinvouthash` is `some`
when the field is non-null, and its content is `some` when
`SafeParseHashV` succeeds on it. -/
structure RpcReportReply where
  rpcError : Bool
  hasResult : Bool
  txhex : Option Bytes
  confirmations : Option Int
  preminecoinvouthash : Option (Option H256)
deriving DecidableEq, Repr

/-- `CheckLockMortgageMineCoinTx` (branchchain.cpp:1628). -/
def CheckLockMortgageMineCoinTx (env : Env) (haveRpcConfig : Bool)
    (reply : RpcReportReply) (tx : Tx) : ChkResult :=
  if ¬tx.IsLockMortgageMineCoin then ChkResult.err "not a lock mortgage mine coin tx"
  else if ¬haveRpcConfig then
    ChkResult.dos 1 RejectCode.invalid "can not found branch rpc config"
  else if reply.rpcError then ChkResult.err "RPC call fail"
  else if ¬reply.hasResult then ChkResult.err "RPC call fail: result null"
  else
    match reply.txhex, reply.confirmations, reply.preminecoinvouthash with
    | some hx, some conf, some ph =>
      if conf < REPORT_LOCK_COIN_HEIGHT then ChkResult.err "Need 60 blocks to be mature"
      else
        match env.decodeHex hx with
        | none => ChkResult.err "decode hex tx fail"
        | some mtxReport =>
          match mtxReport.pReportData with
          | none => ChkResult.err "returned tx is not a report"
          | some rd =>
            if ¬mtxReport.IsReport then ChkResult.err "returned tx is not a report"
            else if rd.reportedBranchId ≠ env.selfBranchHash then
              ChkResult.dos 100 RejectCode.invalid "Report-branchid-not-match"
            else
              match ph with
              | none => ChkResult.err "parse uvprevouthash fail"
              | some minecoinfromhash =>
                if tx.coinpreouthash ≠ minecoinfromhash then
                  ChkResult.dos 0 RejectCode.invalid "lock-mine-coin-error!"
                else ChkResult.ok
    | _, _, _ => ChkResult.err "RPC return invalid value"

/-- `CheckUnlockMortgageMineCoinTx` (branchchain.cpp:1699). -/
def CheckUnlockMortgageMineCoinTx (env : Env) (haveRpcConfig uncheckNoConfigBranch : Bool)
    (reply : RpcReportReply) (tx : Tx) : ChkResult :=
  if ¬tx.IsUnLockMortgageMineCoin then ChkResult.err "not an unlock mortgage mine coin tx"
  else if ¬haveRpcConfig then
    if env.isMainChain ∧ uncheckNoConfigBranch then ChkResult.ok
    else ChkResult.dos 1 RejectCode.invalid "can not found branch rpc config"
  else if reply.rpcError then ChkResult.dos 0 RejectCode.invalid "RPC call fail"
  else if ¬reply.hasResult then
    ChkResult.dos 0 RejectCode.invalid "RPC call fail: result null"
  else
    match reply.txhex, reply.confirmations, reply.preminecoinvouthash with
    | some hx, some conf, some ph =>
      if conf < REPORT_LOCK_COIN_HEIGHT then
        ChkResult.dos 0 RejectCode.invalid "Need 60 blocks to be mature"
      else
        match env.decodeHex hx with
        | none => ChkResult.dos 0 RejectCode.invalid "decode hex tx fail"
        | some mtxProve =>
          match mtxProve.pProveData with
          | none => ChkResult.err "prove data null"
          | some pd =>
            if pd.branchId ≠ env.selfBranchHash then
              ChkResult.dos 100 RejectCode.invalid "prove-branchid-not-match"
            else
              match ph with
              | none => ChkResult.dos 0 RejectCode.invalid "parse minecoinfromhash fail"
              | some minecoinfromhash =>
                if tx.coinpreouthash ≠ minecoinfromhash then
                  ChkResult.dos 0 RejectCode.invalid "lock-mine-coin-error!"
                else ChkResult.ok
    | _, _, _ => ChkResult.dos 0 RejectCode.invalid "RPC return invalid value"

/-- `GetHashNoSignData` of a block: the block hash over everything except
the signature slot (so it is insensitive to `vchBlockSig`). -/
def getHashNoSignData (env : Env) (b : Block) : H256 :=
  env.blockNoSigHash { b with vchBlockSig := [] }

/-- The signing tail of `SignBlock` (part_000:152-161): clear the signature
slot, sign `GetHashNoSignData()` with the key, and store the public key
followed by the signature. -/
def signBlockWithKey (env : Env) (b : Block) (k : Nat) : Bool × Block :=
  let b1 : Block := { b with vchBlockSig := [] }
  match env.keySign k (getHashNoSignData env b) with
  | none => (false, b1)
  | some sig => (true, { b1 with vchBlockSig := [env.keyPubKey k, sig] })

/-- `SignBlock` (part_000:117): solve the stake output script
(`vtx[1].vout[0]`), select the key for TX_PUBKEYHASH on the main chain,
TX_MORTGAGE_COIN on a branch chain, or TX_PUBKEY, and sign. -/
def SignBlock (env : Env) (b : Block) : Bool × Block :=
  let spk := ((b.vtx.getD 1 dummyBTx).vout.getD 0 dummyTxOut).scriptPubKey
  match env.solver spk with
  | none => (false, b)
  | some (whichType, vSolutions) =>
    if (whichType = TxnOutType.txPubkeyhash ∧ env.isMainChain)
        ∨ (whichType = TxnOutType.txMortgageCoin ∧ ¬env.isMainChain) then
      match env.getKey (vSolutions.headD []) with
      | none => (false, b)
      | some k => signBlockWithKey env b k
    else if whichType = TxnOutType.txPubkey then
      match env.getKey (env.hash160 (vSolutions.headD [])) with
      | none => (false, b)
      | some k =>
        if env.keyPubKey k ≠ vSolutions.headD [] then (false, b)
        else signBlockWithKey env b k
    else (false, b)

/-- The key `SignBlock` would sign with: `none` on every pre-signing failure
path (unsolvable script, disallowed script type, missing key, public-key
mismatch). -/
def solvedKey (env : Env) (b : Block) : Option Nat :=
  let spk := ((b.vtx.getD 1 dummyBTx).vout.getD 0 dummyTxOut).scriptPubKey
  match env.solver spk with
  | none => none
  | some (whichType, vSolutions) =>
    if (whichType = TxnOutType.txPubkeyhash ∧ env.isMainChain)
        ∨ (whichType = TxnOutType.txMortgageCoin ∧ ¬env.isMainChain) then
      env.getKey (vSolutions.headD [])
    else if whichType = TxnOutType.txPubkey then
      match env.getKey (env.hash160 (vSolutions.headD [])) with
      | none => none
      | some k => if env.keyPubKey k ≠ vSolutions.headD [] then none else some k
    else none

/-! ### Concrete environments and inputs used by the witnesses -/

/-- A base environment with inert externals; witnesses override the fields
they exercise. -/
def baseEnv : Env :=
  { isMainChain := true
    selfBranchId := ChainId.main
    selfBranchHash := []
    maxMoney := 1000000
    getHash := fun t => [t.vout.length, t.vin.length, t.sendToTxHexData.length]
    getHashB := fun t => [t.vin.length]
    decodeHex := fun _ => none
    combine := fun a b => a ++ b
    isContractScript := fun _ => false
    isContractChange := fun _ => false
    getContractAddr := fun _ => none
    scriptForDest := fun _ => []
    checkSig := fun _ _ _ _ => true
    txHashWithPrevData := fun h _ => h
    txHashWithData := fun h _ => h
    executeContract := fun _ _ _ _ _ _ => none
    solver := fun _ => none
    getKey := fun _ => none
    keySign := fun _ _ => none
    keyPubKey := fun _ => []
    hash160 := fun _ => []
    blockNoSigHash := fun b => [b.vtx.length] }

/-- The 32-byte branch hash of the sample branch. -/
def b32 : Bytes := List.replicate 32 7

/-- A sample step-1 transaction sending 5 coins to branch `b32`; its
`sendToTxHexData` decodes (under `sampleEnv`) to the reverted step-2. -/
def sampleFromTx : Tx :=
  { dummyTx with
    txType := TxType.transStep1
    sendToBranchid := ChainId.branch b32
    sendToTxHexData := [0]
    vout := [{ nValue := 5, scriptPubKey := [ScriptElem.op OpCode.OP_TRANS_BRANCH,
                                             ScriptElem.push b32] }] }

/-- The matching step-2 transaction, validated on branch `b32` with the main
chain as source. -/
def sampleStep2Tx : Tx :=
  { dummyTx with
    txType := TxType.transStep2
    fromBranchId := ChainId.main
    sendToBranchid := ChainId.branch b32
    inAmount := 5
    vout := [{ nValue := 5, scriptPubKey := [] }] }

/-- Environment of the sample run: validating chain is branch `b32`; the
hex decoder knows the two encoded transactions. -/
def sampleEnv : Env :=
  { baseEnv with
    isMainChain := false
    selfBranchId := ChainId.branch b32
    decodeHex := fun b =>
      if b = [0] then some sampleStep2Tx
      else if b = [1] then some sampleFromTx
      else none }

/-- RPC reply of the sample run: the step-1 hex at confirmations -1. -/
def sampleReply : RpcTxReply :=
  { rpcError := false, hasResult := true, hexVal := some [1], confirmations := some (-1) }

/-! ### C4 -/

/-- C4: For a trans-step2 validated outside the verify-db fast path, the
claim requires rejection whenever the reported confirmations are at most
BRANCH_CHAIN_MATURITY.  The code compares the `int` confirmations against
the `uint32_t` maturity (branchchain.cpp:928-929), so a negative
confirmations value converts to a huge unsigned value and passes: with
maturity 6, a reply carrying the correct step-1 transaction but
confirmations -1 (for example a conflicted source transaction) is accepted,
although -1 < 6 + 1.  The claim is the intent; the unsigned comparison is
the slip. -/
theorem c4_negative_confirmations_accepted :
    CheckBranchTransaction sampleEnv sampleReply false true true false 6
        sampleStep2Tx sampleFromTx = ChkResult.ok
      ∧ sampleReply.confirmations = some (-1)
      ∧ ((-1 : Int) < (6 : Int) + 1) := by
  refine ⟨by decide, rfl, by norm_num⟩

/-! ### C10 -/

/-- C10: `CheckSpvProof` returns a non-negative index only if the extracted
root equals the given merkle root, the queried hash is among the matched
hashes, and exactly one index matched; a proof matching two or more
transactions always yields -1. -/
theorem c10_spv_single_match_only (merkleRoot : H256) (pmt : PmtData) (q : H256) :
    ((0 : Int) ≤ CheckSpvProof merkleRoot pmt q →
      pmt.extractedRoot = merkleRoot ∧ q ∈ pmt.matched.map Prod.fst
        ∧ (pmt.matched.map Prod.snd).length = 1)
    ∧ (2 ≤ pmt.matched.length → CheckSpvProof merkleRoot pmt q = -1) := by
  constructor
  · intro h
    simp only [CheckSpvProof] at h
    by_cases h1 : pmt.extractedRoot = merkleRoot
    · rw [if_neg (not_not_intro h1)] at h
      by_cases h2 : q ∈ pmt.matched.map Prod.fst
      · rw [if_neg (not_not_intro h2)] at h
        by_cases h3 : 1 < (pmt.matched.map Prod.snd).length
        · rw [if_pos h3] at h; omega
        · have hpos : 0 < (pmt.matched.map Prod.fst).length :=
            List.length_pos.mpr (List.ne_nil_of_mem h2)
          refine ⟨h1, h2, ?_⟩
          simp only [List.length_map] at hpos h3 ⊢
          omega
      · rw [if_pos h2] at h; omega
    · rw [if_pos h1] at h; omega
  · intro hlen
    simp only [CheckSpvProof]
    by_cases h1 : pmt.extractedRoot ≠ merkleRoot
    · rw [if_pos h1]
    · rw [if_neg h1]
      by_cases h2 : q ∉ pmt.matched.map Prod.fst
      · rw [if_pos h2]
      · rw [if_neg h2, if_pos]
        simp only [List.length_map]
        omega

def pmtSample : PmtData := { extractedRoot := [1], matched := [([5], 0)] }

theorem c10_witness :
    pmtSample.extractedRoot = [1] ∧ ([5] : H256) ∈ pmtSample.matched.map Prod.fst
      ∧ (pmtSample.matched.map Prod.snd).length = 1 :=
  (c10_spv_single_match_only [1] pmtSample [5]).1 (by decide)

/-! ### C5 -/

def c5ReportTx : Tx :=
  { dummyTx with
    txType := TxType.report
    pReportData := some { reporttype := ReportType.reportContractData,
                          reportedBranchId := [1], reportedBlockHash := [2],
                          reportedTxHash := [3] } }

def c5ProveTx : Tx :=
  { dummyTx with
    txType := TxType.prove
    pProveData := some { provetype := ReportType.reportContractData,
                         branchId := [1], blockHash := [2], txHash := [3],
                         vtxData := [], vectProveData := [], vecBlockTxProve := [],
                         contractData := none } }

/-- C5 counterexample: a report and a prove that both carry the
CONTRACT_DATA type and the same (branch, block, tx) identity hash to
different flag keys, because `GetProveTxHashKey` serializes the identity
only for the TX / COINBASE / MERKLETREE types (branchchain.cpp:1125),
while `GetReportTxHashKey` also serializes it for CONTRACT_DATA
(branchchain.cpp:1110). -/
theorem c5_contract_data_keys_differ :
    (c5ReportTx.pReportData.map ReportData.reporttype
        = some ReportType.reportContractData)
    ∧ (c5ProveTx.pProveData.map ProveData.provetype
        = some ReportType.reportContractData)
    ∧ (c5ReportTx.pReportData.map ReportData.reportedBranchId
        = c5ProveTx.pProveData.map ProveData.branchId)
    ∧ (c5ReportTx.pReportData.map ReportData.reportedBlockHash
        = c5ProveTx.pProveData.map ProveData.blockHash)
    ∧ (c5ReportTx.pReportData.map ReportData.reportedTxHash
        = c5ProveTx.pProveData.map ProveData.txHash)
    ∧ GetReportTxHashKey c5ReportTx ≠ GetProveTxHashKey c5ProveTx := by
  refine ⟨rfl, rfl, rfl, rfl, rfl, by decide⟩

/-- C5 (amended): for the report types TX, COINBASE and MERKLETREE, a report
and a prove with the same type and the same (branch, block, tx) identity
compute the same flag key; for CONTRACT_DATA the prove key serializes only
the type, so the two keys differ. -/
theorem c5_flag_keys_collide (rtx ptx : Tx) (rd : ReportData) (pd : ProveData)
    (hr : rtx.IsReport) (hrd : rtx.pReportData = some rd) (hpd : ptx.pProveData = some pd)
    (hty : rd.reporttype = pd.provetype)
    (h3 : pd.provetype = ReportType.reportTx ∨ pd.provetype = ReportType.reportCoinbase
      ∨ pd.provetype = ReportType.reportMerkletree)
    (hb : rd.reportedBranchId = pd.branchId) (hbl : rd.reportedBlockHash = pd.blockHash)
    (ht : rd.reportedTxHash = pd.txHash) :
    GetReportTxHashKey rtx = GetProveTxHashKey ptx := by
  simp only [GetReportTxHashKey, GetProveTxHashKey, hrd, hpd, hr]
  rcases h3 with h | h | h <;>
    simp [hty, h, hb, hbl, ht, hr]

def c5wReportTx : Tx :=
  { dummyTx with
    txType := TxType.report
    pReportData := some { reporttype := ReportType.reportTx,
                          reportedBranchId := [1], reportedBlockHash := [2],
                          reportedTxHash := [3] } }

def c5wProveTx : Tx :=
  { dummyTx with
    txType := TxType.prove
    pProveData := some { provetype := ReportType.reportTx,
                         branchId := [1], blockHash := [2], txHash := [3],
                         vtxData := [], vectProveData := [], vecBlockTxProve := [],
                         contractData := none } }

theorem c5_witness :
    GetReportTxHashKey c5wReportTx = GetProveTxHashKey c5wProveTx :=
  c5_flag_keys_collide c5wReportTx c5wProveTx
    { reporttype := ReportType.reportTx, reportedBranchId := [1],
      reportedBlockHash := [2], reportedTxHash := [3] }
    { provetype := ReportType.reportTx, branchId := [1], blockHash := [2], txHash := [3],
      vtxData := [], vectProveData := [], vecBlockTxProve := [], contractData := none }
    rfl rfl rfl rfl (Or.inl rfl) rfl rfl rfl

/-! ### C6 -/

/-- C6: For a prove transaction, the duplicate check passes exactly when its
flag key is not marked PROVED in the cache nor in the database — in
particular a prove whose key has no entry at all (no prior report) passes —
while a PROVED entry rejects as DUPLICATE; for a report transaction, any
entry under its flag key, in cache or database, rejects as DUPLICATE.
`CheckProveTx` ignores the flag tables entirely (the report-existence check
is commented out in the source), so a missing prior report never affects
its verdict. -/
theorem c6_duplicate_flag_discipline (env : Env) (db : BranchDbData)
    (recvRepeat hasInCache : Bool)
    (cacheFlags dbFlags cf1 df1 cf2 df2 : List (List Nat × RPFlag)) (tx : Tx) :
    (tx.IsProve →
      ((lookupKV cacheFlags (GetProveTxHashKey tx) = none
          ∧ lookupKV dbFlags (GetProveTxHashKey tx) = none) →
        CheckBranchDuplicateTx db recvRepeat hasInCache cacheFlags dbFlags tx
          = ChkResult.ok)
      ∧ (lookupKV cacheFlags (GetProveTxHashKey tx) = some RPFlag.proved →
          CheckBranchDuplicateTx db recvRepeat hasInCache cacheFlags dbFlags tx
            = ChkResult.dos 0 RejectCode.duplicate "duplicate prove in cache")
      ∧ (lookupKV cacheFlags (GetProveTxHashKey tx) ≠ some RPFlag.proved →
          lookupKV dbFlags (GetProveTxHashKey tx) = some RPFlag.proved →
          CheckBranchDuplicateTx db recvRepeat hasInCache cacheFlags dbFlags tx
            = ChkResult.dos 0 RejectCode.duplicate "duplicate prove in db")
      ∧ CheckProveTx env db cf1 df1 tx = CheckProveTx env db cf2 df2 tx)
    ∧ (tx.IsReport →
      ((lookupKV cacheFlags (GetReportTxHashKey tx)).isSome
          ∨ (lookupKV dbFlags (GetReportTxHashKey tx)).isSome →
        ∃ s, CheckBranchDuplicateTx db recvRepeat hasInCache cacheFlags dbFlags tx
          = ChkResult.dos 0 RejectCode.duplicate s)) := by
  constructor
  · intro hp
    have hsync : dupCheckSync db hasInCache tx = none := by
      simp [dupCheckSync, Tx.IsSyncBranchInfo, hp]
    have hstep2 : dupCheckStep2 recvRepeat tx = none := by
      simp [dupCheckStep2, Tx.IsBranchChainTransStep2, hp]
    have hrep : dupCheckReport cacheFlags dbFlags tx = none := by
      simp [dupCheckReport, Tx.IsReport, hp]
    refine ⟨?_, ?_, ?_, rfl⟩
    · rintro ⟨hc, hd⟩
      simp [CheckBranchDuplicateTx, hsync, hstep2, hrep, dupCheckProve, Tx.IsProve,
        hp, hc, hd]
    · intro hc
      simp [CheckBranchDuplicateTx, hsync, hstep2, hrep, dupCheckProve, Tx.IsProve,
        hp, hc]
    · intro hc hd
      simp [CheckBranchDuplicateTx, hsync, hstep2, hrep, dupCheckProve, Tx.IsProve,
        hp, hc, hd]
  · intro hr hentry
    have hsync : dupCheckSync db hasInCache tx = none := by
      simp [dupCheckSync, Tx.IsSyncBranchInfo, hr]
    have hstep2 : dupCheckStep2 recvRepeat tx = none := by
      simp [dupCheckStep2, Tx.IsBranchChainTransStep2, hr]
    rcases hc : lookupKV cacheFlags (GetReportTxHashKey tx) with _ | fl
    · rcases hd : lookupKV dbFlags (GetReportTxHashKey tx) with _ | fl2
      · exfalso
        rw [hc, hd] at hentry
        simp at hentry
      · exact ⟨"duplicate report in db", by
          simp [CheckBranchDuplicateTx, hsync, hstep2, dupCheckReport, Tx.IsReport,
            hr, hc, hd]⟩
    · exact ⟨"duplicate report in cache", by
        simp [CheckBranchDuplicateTx, hsync, hstep2, dupCheckReport, Tx.IsReport,
          hr, hc]⟩

theorem c6_witness :
    CheckBranchDuplicateTx emptyBranchDb false false [] [] c5ProveTx = ChkResult.ok :=
  ((c6_duplicate_flag_discipline baseEnv emptyBranchDb false false [] [] [] [] [] []
      c5ProveTx).1 rfl).1 ⟨rfl, rfl⟩

/-! ### C9 -/

/-- `SignBlock` factored through the key it solves: helper for the C9
theorem. -/
theorem SignBlock_eq_solvedKey (env : Env) (b : Block) :
    SignBlock env b
      = match solvedKey env b with
        | none => (false, b)
        | some k => signBlockWithKey env b k := by
  simp only [SignBlock, solvedKey]
  rcases env.solver ((b.vtx.getD 1 dummyBTx).vout.getD 0 dummyTxOut).scriptPubKey
    with _ | ⟨whichType, vSolutions⟩
  · rfl
  · dsimp only
    split
    · rcases env.getKey (vSolutions.headD []) with _ | k <;> rfl
    · split
      · rcases env.getKey (env.hash160 (vSolutions.headD [])) with _ | k
        · rfl
        · dsimp only
          split <;> rfl
      · rfl

/-- C9: For a block with at least two transactions, a successful `SignBlock`
signs `GetHashNoSignData()` with the key solved from the stake transaction
(`vtx[1]`) first output script and stores the public key followed by the
signature in `vchBlockSig`; on every pre-signing failure (unsolvable script,
script type other than TX_PUBKEYHASH on the main chain, TX_MORTGAGE_COIN on
a branch, or TX_PUBKEY, missing key, public-key mismatch — `solvedKey` is
`none`) it returns false with the block unchanged. -/
theorem c9_signblock_stake_key (env : Env) (b : Block) (hlen : 2 ≤ b.vtx.length) :
    (∀ br, SignBlock env b = (true, br) →
      ∃ k sig, solvedKey env b = some k
        ∧ env.keySign k (getHashNoSignData env b) = some sig
        ∧ br = { b with vchBlockSig := [env.keyPubKey k, sig] })
    ∧ (solvedKey env b = none → SignBlock env b = (false, b)) := by
  have heq := SignBlock_eq_solvedKey env b
  constructor
  · intro br h
    rw [heq] at h
    rcases hk : solvedKey env b with _ | k
    · rw [hk] at h
      simp at h
    · rw [hk] at h
      simp only [signBlockWithKey] at h
      rcases hsig : env.keySign k (getHashNoSignData env b) with _ | sig
      · rw [hsig] at h
        simp at h
      · rw [hsig] at h
        refine ⟨k, sig, rfl, hsig, ?_⟩
        have h2 := congrArg Prod.snd h
        simpa using h2.symm
  · intro h
    rw [heq, h]

def c9Block : Block :=
  { vtx := [dummyBTx,
            { dummyBTx with vout := [{ nValue := 0,
                                       scriptPubKey := [ScriptElem.op OpCode.OP_DUP] }] }],
    vchBlockSig := [], prevoutStake := { hash := [], n := 0 }, hashMerkleRoot := [] }

def c9Env : Env :=
  { baseEnv with
    solver := fun s =>
      if s = [ScriptElem.op OpCode.OP_DUP] then some (TxnOutType.txPubkey, [[7]]) else none
    getKey := fun h => if h = [9] then some 5 else none
    hash160 := fun b => if b = [7] then [9] else []
    keyPubKey := fun _ => [7]
    keySign := fun _ h => some (h ++ [1]) }

theorem c9_witness :
    ∃ k sig, solvedKey c9Env c9Block = some k
      ∧ c9Env.keySign k (getHashNoSignData c9Env c9Block) = some sig
      ∧ (SignBlock c9Env c9Block).2
          = { c9Block with vchBlockSig := [c9Env.keyPubKey k, sig] } :=
  (c9_signblock_stake_key c9Env c9Block (by decide)).1 (SignBlock c9Env c9Block).2 rfl

/-! ### C8 -/

/-- C8: `CheckLockMortgageMineCoinTx` and `CheckUnlockMortgageMineCoinTx`
(with an RPC config present) accept only when the main chain reply reports
confirmations of at least `REPORT_LOCK_COIN_HEIGHT` (60), the returned
report / prove points at this branch, and the returned
`preminecoinvouthash` equals the transaction `coinpreouthash`; any
confirmations below 60 reject. -/
theorem c8_lock_unlock_confirmation_gate (env : Env) (uncheck : Bool)
    (replyL replyU : RpcReportReply) (txL txU : Tx) :
    (CheckLockMortgageMineCoinTx env true replyL txL = ChkResult.ok →
      ∃ conf hx mtx rd ph,
        replyL.confirmations = some conf ∧ REPORT_LOCK_COIN_HEIGHT ≤ conf
        ∧ replyL.txhex = some hx ∧ env.decodeHex hx = some mtx
        ∧ mtx.pReportData = some rd ∧ rd.reportedBranchId = env.selfBranchHash
        ∧ replyL.preminecoinvouthash = some (some ph) ∧ txL.coinpreouthash = ph)
    ∧ (∀ conf, replyL.confirmations = some conf → conf < REPORT_LOCK_COIN_HEIGHT →
        CheckLockMortgageMineCoinTx env true replyL txL ≠ ChkResult.ok)
    ∧ (CheckUnlockMortgageMineCoinTx env true uncheck replyU txU = ChkResult.ok →
      ∃ conf hx mtx pd ph,
        replyU.confirmations = some conf ∧ REPORT_LOCK_COIN_HEIGHT ≤ conf
        ∧ replyU.txhex = some hx ∧ env.decodeHex hx = some mtx
        ∧ mtx.pProveData = some pd ∧ pd.branchId = env.selfBranchHash
        ∧ replyU.preminecoinvouthash = some (some ph) ∧ txU.coinpreouthash = ph)
    ∧ (∀ conf, replyU.confirmations = some conf → conf < REPORT_LOCK_COIN_HEIGHT →
        CheckUnlockMortgageMineCoinTx env true uncheck replyU txU ≠ ChkResult.ok) := by
  obtain ⟨lerr, lres, ltxhex, lconf, lph⟩ := replyL
  obtain ⟨uerr, ures, utxhex, uconf, uph⟩ := replyU
  refine ⟨?_, ?_, ?_, ?_⟩
  · intro h
    by_cases hl : txL.IsLockMortgageMineCoin
    case neg => simp [CheckLockMortgageMineCoinTx, Tx.IsLockMortgageMineCoin, hl] at h
    by_cases herr : lerr = true
    case pos => simp [CheckLockMortgageMineCoinTx, Tx.IsLockMortgageMineCoin, hl, herr] at h
    by_cases hres : lres = true
    case neg =>
      simp [CheckLockMortgageMineCoinTx, Tx.IsLockMortgageMineCoin, hl, herr, hres] at h
    rcases ltxhex with _ | hx
    · simp [CheckLockMortgageMineCoinTx, Tx.IsLockMortgageMineCoin, hl, herr, hres] at h
    rcases lconf with _ | conf
    · simp [CheckLockMortgageMineCoinTx, Tx.IsLockMortgageMineCoin, hl, herr, hres] at h
    rcases lph with _ | php
    · simp [CheckLockMortgageMineCoinTx, Tx.IsLockMortgageMineCoin, hl, herr, hres] at h
    by_cases hlt : conf < REPORT_LOCK_COIN_HEIGHT
    case pos =>
      simp [CheckLockMortgageMineCoinTx, Tx.IsLockMortgageMineCoin, hl, herr, hres,
        hlt] at h
    rcases hdec : env.decodeHex hx with _ | mtx
    · simp [CheckLockMortgageMineCoinTx, Tx.IsLockMortgageMineCoin, hl, herr, hres,
        hlt, hdec] at h
    rcases hrd : mtx.pReportData with _ | rd
    · simp [CheckLockMortgageMineCoinTx, Tx.IsLockMortgageMineCoin, hl, herr, hres,
        hlt, hdec, hrd] at h
    by_cases hrep : mtx.IsReport
    case neg =>
      simp [CheckLockMortgageMineCoinTx, Tx.IsLockMortgageMineCoin, Tx.IsReport,
        hl, herr, hres, hlt, hdec, hrd, hrep] at h
    by_cases hbr : rd.reportedBranchId = env.selfBranchHash
    case neg =>
      simp [CheckLockMortgageMineCoinTx, Tx.IsLockMortgageMineCoin, Tx.IsReport,
        hl, herr, hres, hlt, hdec, hrd, hrep, hbr] at h
    rcases php with _ | phash
    · simp [CheckLockMortgageMineCoinTx, Tx.IsLockMortgageMineCoin, Tx.IsReport,
        hl, herr, hres, hlt, hdec, hrd, hrep, hbr] at h
    by_cases hcp : txL.coinpreouthash = phash
    case neg =>
      simp [CheckLockMortgageMineCoinTx, Tx.IsLockMortgageMineCoin, Tx.IsReport,
        hl, herr, hres, hlt, hdec, hrd, hrep, hbr, hcp] at h
    exact ⟨conf, hx, mtx, rd, phash, rfl, le_of_not_lt hlt, rfl, hdec, hrd, hbr, rfl, hcp⟩
  · intro conf hconf hlt hok
    simp only at hconf
    subst hconf
    by_cases hl : txL.IsLockMortgageMineCoin
    case neg => simp [CheckLockMortgageMineCoinTx, Tx.IsLockMortgageMineCoin, hl] at hok
    by_cases herr : lerr = true
    case pos =>
      simp [CheckLockMortgageMineCoinTx, Tx.IsLockMortgageMineCoin, hl, herr] at hok
    by_cases hres : lres = true
    case neg =>
      simp [CheckLockMortgageMineCoinTx, Tx.IsLockMortgageMineCoin, hl, herr, hres] at hok
    rcases ltxhex with _ | hx
    · simp [CheckLockMortgageMineCoinTx, Tx.IsLockMortgageMineCoin, hl, herr, hres] at hok
    rcases lph with _ | php
    · simp [CheckLockMortgageMineCoinTx, Tx.IsLockMortgageMineCoin, hl, herr, hres] at hok
    simp [CheckLockMortgageMineCoinTx, Tx.IsLockMortgageMineCoin, hl, herr, hres,
      hlt] at hok
  · intro h
    by_cases hu : txU.IsUnLockMortgageMineCoin
    case neg =>
      simp [CheckUnlockMortgageMineCoinTx, Tx.IsUnLockMortgageMineCoin, hu] at h
    by_cases herr : uerr = true
    case pos =>
      simp [CheckUnlockMortgageMineCoinTx, Tx.IsUnLockMortgageMineCoin, hu, herr] at h
    by_cases hres : ures = true
    case neg =>
      simp [CheckUnlockMortgageMineCoinTx, Tx.IsUnLockMortgageMineCoin, hu, herr,
        hres] at h
    rcases utxhex with _ | hx
    · simp [CheckUnlockMortgageMineCoinTx, Tx.IsUnLockMortgageMineCoin, hu, herr,
        hres] at h
    rcases uconf with _ | conf
    · simp [CheckUnlockMortgageMineCoinTx, Tx.IsUnLockMortgageMineCoin, hu, herr,
        hres] at h
    rcases uph with _ | php
    · simp [CheckUnlockMortgageMineCoinTx, Tx.IsUnLockMortgageMineCoin, hu, herr,
        hres] at h
    by_cases hlt : conf < REPORT_LOCK_COIN_HEIGHT
    case pos =>
      simp [CheckUnlockMortgageMineCoinTx, Tx.IsUnLockMortgageMineCoin, hu, herr,
        hres, hlt] at h
    rcases hdec : env.decodeHex hx with _ | mtx
    · simp [CheckUnlockMortgageMineCoinTx, Tx.IsUnLockMortgageMineCoin, hu, herr,
        hres, hlt, hdec] at h
    rcases hpd : mtx.pProveData with _ | pd
    · simp [CheckUnlockMortgageMineCoinTx, Tx.IsUnLockMortgageMineCoin, hu, herr,
        hres, hlt, hdec, hpd] at h
    by_cases hbr : pd.branchId = env.selfBranchHash
    case neg =>
      simp [CheckUnlockMortgageMineCoinTx, Tx.IsUnLockMortgageMineCoin, hu, herr,
        hres, hlt, hdec, hpd, hbr] at h
    rcases php with _ | phash
    · simp [CheckUnlockMortgageMineCoinTx, Tx.IsUnLockMortgageMineCoin, hu, herr,
        hres, hlt, hdec, hpd, hbr] at h
    by_cases hcp : txU.coinpreouthash = phash
    case neg =>
      simp [CheckUnlockMortgageMineCoinTx, Tx.IsUnLockMortgageMineCoin, hu, herr,
        hres, hlt, hdec, hpd, hbr, hcp] at h
    exact ⟨conf, hx, mtx, pd, phash, rfl, le_of_not_lt hlt, rfl, hdec, hpd, hbr, rfl, hcp⟩
  · intro conf hconf hlt hok
    simp only at hconf
    subst hconf
    by_cases hu : txU.IsUnLockMortgageMineCoin
    case neg =>
      simp [CheckUnlockMortgageMineCoinTx, Tx.IsUnLockMortgageMineCoin, hu] at hok
    by_cases herr : uerr = true
    case pos =>
      simp [CheckUnlockMortgageMineCoinTx, Tx.IsUnLockMortgageMineCoin, hu, herr] at hok
    by_cases hres : ures = true
    case neg =>
      simp [CheckUnlockMortgageMineCoinTx, Tx.IsUnLockMortgageMineCoin, hu, herr,
        hres] at hok
    rcases utxhex with _ | hx
    · simp [CheckUnlockMortgageMineCoinTx, Tx.IsUnLockMortgageMineCoin, hu, herr,
        hres] at hok
    rcases uph with _ | php
    · simp [CheckUnlockMortgageMineCoinTx, Tx.IsUnLockMortgageMineCoin, hu, herr,
        hres] at hok
    simp [CheckUnlockMortgageMineCoinTx, Tx.IsUnLockMortgageMineCoin, hu, herr, hres,
      hlt] at hok

def c8ReportTx : Tx :=
  { dummyTx with
    txType := TxType.report
    pReportData := some { reporttype := ReportType.reportTx, reportedBranchId := [9],
                          reportedBlockHash := [2], reportedTxHash := [3] } }

def c8ProveTx : Tx :=
  { dummyTx with
    txType := TxType.prove
    pProveData := some { provetype := ReportType.reportTx, branchId := [9],
                         blockHash := [2], txHash := [3], vtxData := [],
                         vectProveData := [], vecBlockTxProve := [], contractData := none } }

def c8Env : Env :=
  { baseEnv with
    selfBranchHash := [9]
    decodeHex := fun b =>
      if b = [0] then some c8ReportTx else if b = [1] then some c8ProveTx else none }

def c8ReplyL : RpcReportReply :=
  { rpcError := false, hasResult := true, txhex := some [0], confirmations := some 60,
    preminecoinvouthash := some (some [4]) }

def c8ReplyU : RpcReportReply :=
  { rpcError := false, hasResult := true, txhex := some [1], confirmations := some 60,
    preminecoinvouthash := some (some [4]) }

def c8LockTx : Tx :=
  { dummyTx with txType := TxType.lockMortgageMineCoin, coinpreouthash := [4] }

def c8UnlockTx : Tx :=
  { dummyTx with txType := TxType.unlockMortgageMineCoin, coinpreouthash := [4] }

theorem c8_witness :
    (∃ conf hx mtx rd ph,
      c8ReplyL.confirmations = some conf ∧ REPORT_LOCK_COIN_HEIGHT ≤ conf
      ∧ c8ReplyL.txhex = some hx ∧ c8Env.decodeHex hx = some mtx
      ∧ mtx.pReportData = some rd ∧ rd.reportedBranchId = c8Env.selfBranchHash
      ∧ c8ReplyL.preminecoinvouthash = some (some ph) ∧ c8LockTx.coinpreouthash = ph)
    ∧ (∃ conf hx mtx pd ph,
      c8ReplyU.confirmations = some conf ∧ REPORT_LOCK_COIN_HEIGHT ≤ conf
      ∧ c8ReplyU.txhex = some hx ∧ c8Env.decodeHex hx = some mtx
      ∧ mtx.pProveData = some pd ∧ pd.branchId = c8Env.selfBranchHash
      ∧ c8ReplyU.preminecoinvouthash = some (some ph) ∧ c8UnlockTx.coinpreouthash = ph) :=
  ⟨(c8_lock_unlock_confirmation_gate c8Env false c8ReplyL c8ReplyU c8LockTx
      c8UnlockTx).1 (by decide),
   (c8_lock_unlock_confirmation_gate c8Env false c8ReplyL c8ReplyU c8LockTx
      c8UnlockTx).2.2.1 (by decide)⟩

/-! ### C2 -/

/-- The revert transform as the claim words it, for a trans-step2: clear
`fromTx`, clear `vout[0]`'s script when the source is a mortgage, replace
the SPV proof by an empty one and strip the inputs and the branch-recharge
outputs when the source chain is not MAIN. -/
def specRevertStep2 (tx fromTx : Tx) : Tx :=
  let v1 := if fromTx.IsMortgage then clearVout0Script tx.vout else tx.vout
  if tx.fromBranchId ≠ ChainId.main then
    { tx with
      fromTx := []
      pPMT := emptySpvProof
      vin := [nullTxIn]
      vout := v1.filter fun o => ¬IsCoinBranchTranScript o.scriptPubKey }
  else
    { tx with fromTx := [], vout := v1 }

theorem revert_eq_specRevert (env : Env) (tx fromTx : Tx)
    (h : tx.IsBranchChainTransStep2) :
    RevertTransaction env tx (some fromTx) true = specRevertStep2 tx fromTx := by
  by_cases hmain : tx.fromBranchId = ChainId.main
  · by_cases hmort : fromTx.IsMortgage
    · simp [RevertTransaction, specRevertStep2, Tx.IsBranchChainTransStep2,
        Tx.IsSmartContract, Tx.IsMortgage, h, hmain, hmort]
    · simp [RevertTransaction, specRevertStep2, Tx.IsBranchChainTransStep2,
        Tx.IsSmartContract, Tx.IsMortgage, h, hmain, hmort]
  · by_cases hmort : fromTx.IsMortgage
    · simp [RevertTransaction, specRevertStep2, Tx.IsBranchChainTransStep2,
        Tx.IsSmartContract, Tx.IsMortgage, h, hmain, hmort]
    · simp [RevertTransaction, specRevertStep2, Tx.IsBranchChainTransStep2,
        Tx.IsSmartContract, Tx.IsMortgage, h, hmain, hmort]

/-- Facts available whenever the local stage of `CheckBranchTransaction`
accepts: the decoded `sendToTxHexData` hash-matches the reverted step-2, and
`inAmount` equals `GetBranchChainOut` of the source transaction. -/
theorem cbtLocal_ok_facts (env : Env) (tx pFromTx : Tx)
    (h : cbtLocal env tx pFromTx = ChkResult.ok) :
    (∃ t, env.decodeHex pFromTx.sendToTxHexData = some t
      ∧ env.getHash t = env.getHash (RevertTransaction env tx (some pFromTx) true))
    ∧ GetBranchChainOut pFromTx = tx.inAmount := by
  by_cases h1 : tx.IsBranchChainTransStep2
  case neg => simp [cbtLocal, Tx.IsBranchChainTransStep2, h1] at h
  by_cases h2 : tx.fromBranchId = env.selfBranchId
  case pos => simp [cbtLocal, Tx.IsBranchChainTransStep2, h1, h2] at h
  rcases hms : cbtMortgageStage tx pFromTx with _ | ⟨s, c, r⟩ | r
  · rcases hdec : env.decodeHex pFromTx.sendToTxHexData with _ | t
    · simp [cbtLocal, Tx.IsBranchChainTransStep2, h1, h2, hms, hdec] at h
    · by_cases hh : env.getHash t
          = env.getHash (RevertTransaction env tx (some pFromTx) true)
      case neg =>
        simp [cbtLocal, Tx.IsBranchChainTransStep2, h1, h2, hms, hdec, hh] at h
      by_cases hamt : GetBranchChainOut pFromTx ≠ tx.inAmount
          ∨ ¬moneyRange env tx.inAmount
      case pos =>
        simp only [cbtLocal, Tx.IsBranchChainTransStep2] at h
        rw [if_neg (not_not_intro h1), if_neg h2, hms, hdec] at h
        simp only [hh, ne_eq, not_true_eq_false, if_false, ite_false, if_neg] at h
        rw [if_pos hamt] at h
        exact absurd h (by simp)
      case neg =>
        push_neg at hamt
        exact ⟨⟨t, rfl, hh⟩, hamt.1⟩
  · simp [CheckBranchTransaction, cbtLocal, Tx.IsBranchChainTransStep2, h1, h2, hms] at h
  · simp [CheckBranchTransaction, cbtLocal, Tx.IsBranchChainTransStep2, h1, h2, hms] at h

/-- An accepting `CheckBranchTransaction` run has an accepting local stage. -/
theorem checkBranch_ok_local (env : Env) (reply : RpcTxReply)
    (fV uIV hC uNC : Bool) (maturity : Nat) (tx pFromTx : Tx)
    (h : CheckBranchTransaction env reply fV uIV hC uNC maturity tx pFromTx
      = ChkResult.ok) :
    cbtLocal env tx pFromTx = ChkResult.ok := by
  rcases hl : cbtLocal env tx pFromTx with _ | ⟨s, c, r⟩ | r
  · rfl
  · simp [CheckBranchTransaction, hl] at h
  · simp [CheckBranchTransaction, hl] at h

/-- C2: the hash-comparison stage of `CheckBranchTransaction`: the revert
transform equals the claim's transform on every trans-step2; an accepting
run decodes the step-1 `sendToTxHexData` to a transaction whose hash equals
the reverted step-2's hash; and when the decoded transaction's hash differs
the run never accepts. -/
theorem c2_revert_hash_equation (env : Env) (reply : RpcTxReply)
    (fV uIV hC uNC : Bool) (maturity : Nat) (tx pFromTx : Tx) :
    (tx.IsBranchChainTransStep2 →
      RevertTransaction env tx (some pFromTx) true = specRevertStep2 tx pFromTx)
    ∧ (CheckBranchTransaction env reply fV uIV hC uNC maturity tx pFromTx
        = ChkResult.ok →
      ∃ t, env.decodeHex pFromTx.sendToTxHexData = some t
        ∧ env.getHash t = env.getHash (RevertTransaction env tx (some pFromTx) true))
    ∧ (∀ t, env.decodeHex pFromTx.sendToTxHexData = some t →
        env.getHash t ≠ env.getHash (RevertTransaction env tx (some pFromTx) true) →
        CheckBranchTransaction env reply fV uIV hC uNC maturity tx pFromTx
          ≠ ChkResult.ok) := by
  refine ⟨fun h => revert_eq_specRevert env tx pFromTx h, ?_, ?_⟩
  · intro h
    exact (cbtLocal_ok_facts env tx pFromTx
      (checkBranch_ok_local env reply fV uIV hC uNC maturity tx pFromTx h)).1
  · intro t hdec hne h
    obtain ⟨⟨t2, hdec2, hh2⟩, _⟩ := cbtLocal_ok_facts env tx pFromTx
      (checkBranch_ok_local env reply fV uIV hC uNC maturity tx pFromTx h)
    rw [hdec] at hdec2
    cases hdec2
    exact hne hh2

theorem c2_witness :
    ∃ t, sampleEnv.decodeHex sampleFromTx.sendToTxHexData = some t
      ∧ sampleEnv.getHash t
        = sampleEnv.getHash (RevertTransaction sampleEnv sampleStep2Tx
            (some sampleFromTx) true) :=
  (c2_revert_hash_equation sampleEnv sampleReply false true true false 6
      sampleStep2Tx sampleFromTx).2.1 (by decide)

/-! ### C3 -/

/-- The branch-out output test as the claim words it: with a branch
destination, a script starting with `OP_TRANS_BRANCH` followed by a 32-byte
hash equal to the destination branch id; with destination MAIN, a script
starting with `OP_RETURN OP_TRANS_BRANCH`; for a mortgage source,
`OP_MINE_BRANCH_MORTGAGE` scripts are also counted. -/
def specBranchOutMatch (fromTx : Tx) (s : Script) : Bool :=
  (match fromTx.sendToBranchid with
   | ChainId.branch bh =>
     (match getOp s with
      | some (c1, _, r1) =>
        if c1 = OpCode.OP_TRANS_BRANCH then
          match getOp r1 with
          | some (_, vch, _) => if vch.length = 32 then decide (vch = bh) else false
          | none => false
        else false
      | none => false)
   | ChainId.main =>
     (match getOp s with
      | some (c1, _, r1) =>
        if c1 = OpCode.OP_RETURN then
          match getOp r1 with
          | some (c2, _, _) => decide (c2 = OpCode.OP_TRANS_BRANCH)
          | none => false
        else false
      | none => false))
  || (decide fromTx.IsMortgage &&
      (match getOp s with
       | some (c1, _, _) => decide (c1 = OpCode.OP_MINE_BRANCH_MORTGAGE)
       | none => false))

/-- The claim's branch-out sum of the source transaction. -/
def specBranchOutSum (fromTx : Tx) : Int :=
  ((fromTx.vout.filter fun o => specBranchOutMatch fromTx o.scriptPubKey).map
      TxOut.nValue).sum

theorem specMatch_eq_transMatch (t : Tx) (h1 : t.txType = TxType.transStep1)
    (s : Script) :
    specBranchOutMatch t s = branchTransOutMatch t.sendToBranchid s := by
  rcases hsd : t.sendToBranchid with _ | bh
  · simp only [specBranchOutMatch, branchTransOutMatch, hsd, Tx.IsMortgage, h1]
    rcases getOp s with _ | ⟨c1, d1, r1⟩
    · simp
    · simp
  · simp only [specBranchOutMatch, branchTransOutMatch, hsd, Tx.IsMortgage, h1]
    rcases getOp s with _ | ⟨c1, d1, r1⟩
    · simp
    · by_cases hc1 : c1 = OpCode.OP_TRANS_BRANCH
      · simp only [hc1, if_pos rfl]
        rcases getOp r1 with _ | ⟨c2, vch, r2⟩
        · simp
        · by_cases hlen : vch.length = 32
          · by_cases hv : vch = bh
            · simp [hlen, hv]
            · simp [hlen, hv, Ne.symm hv]
          · simp [hlen]
      · simp [hc1]

theorem specMatch_eq_mortgageMatch (t : Tx) (h1 : t.txType = TxType.mortgage)
    (bh : Bytes) (hsd : t.sendToBranchid = ChainId.branch bh) (s : Script) :
    specBranchOutMatch t s = mortgageMineOutMatch true t.sendToBranchid s := by
  simp only [specBranchOutMatch, mortgageMineOutMatch, hsd, Tx.IsMortgage, h1]
  rcases getOp s with _ | ⟨c1, d1, r1⟩
  · simp
  · by_cases hm : c1 = OpCode.OP_MINE_BRANCH_MORTGAGE
    · simp [hm]
    · by_cases hc1 : c1 = OpCode.OP_TRANS_BRANCH
      · simp only [hm, hc1, if_pos rfl, if_neg]
        rcases getOp r1 with _ | ⟨c2, vch, r2⟩
        · simp
        · by_cases hlen : vch.length = 32
          · by_cases hv : vch = bh
            · simp [hlen, hv, hm]
            · simp [hlen, hv, hm, Ne.symm hv]
          · simp [hlen, hm]
      · simp [hm, hc1]

/-- `GetBranchChainOut` agrees with the claim's branch-out sum for a step-1
or mortgage source (a mortgage always targets a branch). -/
theorem branchChainOut_eq_specSum (t : Tx)
    (hsrc : t.IsBranchChainTransStep1 ∨ t.IsMortgage)
    (hnm : t.IsMortgage → t.sendToBranchid ≠ ChainId.main) :
    GetBranchChainOut t = specBranchOutSum t := by
  rcases hsrc with h1 | h1
  · have hpt : ∀ o ∈ t.vout,
        branchTransOutMatch t.sendToBranchid o.scriptPubKey
          = specBranchOutMatch t o.scriptPubKey :=
      fun o _ => (specMatch_eq_transMatch t h1 o.scriptPubKey).symm
    simp [GetBranchChainOut, GetBranchChainTransOut, specBranchOutSum,
      Tx.IsBranchChainTransStep1, h1, List.filter_congr hpt]
  · rcases hsd : t.sendToBranchid with _ | bh
    · exact absurd hsd (hnm h1)
    · have hpt : ∀ o ∈ t.vout,
          mortgageMineOutMatch true t.sendToBranchid o.scriptPubKey
            = specBranchOutMatch t o.scriptPubKey :=
        fun o _ => (specMatch_eq_mortgageMatch t h1 bh hsd o.scriptPubKey).symm
      simp [GetBranchChainOut, GetMortgageMineOut, specBranchOutSum,
        Tx.IsBranchChainTransStep1, Tx.IsMortgage, h1, List.filter_congr hpt]

/-- C3: an accepting `CheckBranchTransaction` run forces `inAmount` to equal
the claim's branch-out sum of the source transaction, and a differing
`inAmount` is never accepted. -/
theorem c3_inamount_equals_branch_out (env : Env) (reply : RpcTxReply)
    (fV uIV hC uNC : Bool) (maturity : Nat) (tx pFromTx : Tx)
    (hsrc : pFromTx.IsBranchChainTransStep1 ∨ pFromTx.IsMortgage)
    (hnm : pFromTx.IsMortgage → pFromTx.sendToBranchid ≠ ChainId.main) :
    (CheckBranchTransaction env reply fV uIV hC uNC maturity tx pFromTx
        = ChkResult.ok →
      tx.inAmount = specBranchOutSum pFromTx)
    ∧ (tx.inAmount ≠ specBranchOutSum pFromTx →
      CheckBranchTransaction env reply fV uIV hC uNC maturity tx pFromTx
        ≠ ChkResult.ok) := by
  have key : CheckBranchTransaction env reply fV uIV hC uNC maturity tx pFromTx
        = ChkResult.ok →
      tx.inAmount = specBranchOutSum pFromTx := by
    intro h
    have hfacts := (cbtLocal_ok_facts env tx pFromTx
      (checkBranch_ok_local env reply fV uIV hC uNC maturity tx pFromTx h)).2
    rw [← hfacts, branchChainOut_eq_specSum pFromTx hsrc hnm]
  exact ⟨key, fun hne h => hne (key h)⟩

theorem c3_witness :
    sampleStep2Tx.inAmount = specBranchOutSum sampleFromTx :=
  (c3_inamount_equals_branch_out sampleEnv sampleReply false true true false 6
      sampleStep2Tx sampleFromTx (Or.inl rfl) (by intro hm; cases hm)).1 (by decide)

/-! ### C1 -/

def c1ReportTx : Tx :=
  { dummyTx with
    txType := TxType.report
    pReportData := some { reporttype := ReportType.reportTx, reportedBranchId := [3],
                          reportedBlockHash := [4], reportedTxHash := [5] } }

def c1RewardTx : Tx :=
  { dummyTx with txType := TxType.reportReward, reporttxid := [1] }

def c1Ctx : MainChainCtx :=
  { readTxData := fun h => if h = [1] then some (c1ReportTx, [2]) else none
    blockIndexHeight := [([2], 100)]
    activeChain := [[2]] }

/-- C1: the claim requires acceptance once the report's block age
`pindex.height - reportBlock.height` reaches `REPORT_OUTOF_HEIGHT`.  The
code computes the difference the other way around
(branchchain.cpp:1586: `rpBlockIndex->nHeight - pindex->nHeight`), which is
never at least a positive `REPORT_OUTOF_HEIGHT` for a report confirmed
below `pindex`: with the report in the active block at height 100 and
`pindex` at height `100 + R` (age exactly `R`, the prove window elapsed),
the transaction is still rejected INVALID with "Still in prove stage.".
The claim is the intent; the reversed subtraction is the slip. -/
theorem c1_report_window_reversed (R : Int) (hR : 1 ≤ R) :
    CheckReportRewardTransaction { baseEnv with isMainChain := true } c1Ctx
        emptyBranchDb R c1RewardTx (100 + R)
      = ChkResult.dos 100 RejectCode.invalid "Still in prove stage." := by
  simp only [CheckReportRewardTransaction, c1Ctx, c1RewardTx, c1ReportTx, baseEnv,
    dummyTx, lookupKV, Tx.IsReportReward, Tx.IsReport]
  norm_num
  intro hcontra
  omega

theorem c1_witness :
    CheckReportRewardTransaction { baseEnv with isMainChain := true } c1Ctx
        emptyBranchDb 100 c1RewardTx (100 + 100)
      = ChkResult.dos 100 RejectCode.invalid "Still in prove stage." :=
  c1_report_window_reversed 100 (by norm_num)

/-! ### C7 -/

theorem checkTxProveInputs_error_ne_ok (env : Env) (bd : BranchData) (ptx : BTx)
    (cs : Script) :
    ∀ (l : List (TxIn × ProveDataItem)) (i : Nat) (a b : Int) (e : ChkResult),
      checkTxProveInputs env bd ptx cs l i a b = Except.error e → e ≠ ChkResult.ok := by
  intro l
  induction l with
  | nil =>
    intro i a b e h
    simp [checkTxProveInputs] at h
  | cons hd tl ih =>
    intro i a b e h
    obtain ⟨vin, item⟩ := hd
    simp only [checkTxProveInputs] at h
    repeat' split at h
    all_goals
      first
      | exact ih _ _ _ _ h
      | (injection h with h2
         subst h2
         simp)
      | simp at h

theorem checkTxProveOutputs_error_ne_ok (env : Env) (ca : Bytes) :
    ∀ (l : List TxOut) (a b : Int) (e : ChkResult),
      checkTxProveOutputs env ca l a b = Except.error e → e ≠ ChkResult.ok := by
  intro l
  induction l with
  | nil =>
    intro a b e h
    simp [checkTxProveOutputs] at h
  | cons hd tl ih =>
    intro a b e h
    simp only [checkTxProveOutputs] at h
    repeat' split at h
    all_goals
      first
      | exact ih _ _ _ h
      | (injection h with h2
         subst h2
         simp)
      | simp at h

theorem checkTxProve_error_ne_ok (env : Env) (ptx : BTx) (vect : List ProveDataItem)
    (bd : BranchData) (j : Bool) (e : ChkResult)
    (h : CheckTransactionProveWithProveData env ptx vect bd j = Except.error e) :
    e ≠ ChkResult.ok := by
  simp only [CheckTransactionProveWithProveData] at h
  repeat' split at h
  all_goals
    first
    | (cases h
       rename_i heq
       first
       | exact checkTxProveInputs_error_ne_ok env bd ptx _ _ _ _ _ _ heq
       | exact checkTxProveOutputs_error_ne_ok env _ _ _ _ _ heq)
    | (cases h
       simp)
    | cases h
    | (rename_i heq
       first
       | exact checkTxProveInputs_error_ne_ok env bd ptx _ _ _ _ _ _ heq
       | exact checkTxProveOutputs_error_ne_ok env _ _ _ _ _ heq)
    | simp at h

theorem sumFees_error_ne_ok (env : Env) (bd : BranchData) :
    ∀ (ts : List BTx) (ps : List (List ProveDataItem)) (e : ChkResult),
      sumFees env bd ts ps = Except.error e → e ≠ ChkResult.ok := by
  intro ts
  induction ts with
  | nil =>
    intro ps e h
    simp [sumFees] at h
  | cons hd tl ih =>
    intro ps e h
    rcases ps with _ | ⟨p, ps⟩
    · simp [sumFees] at h
    · simp only [sumFees] at h
      repeat' split at h
      all_goals
        first
        | (cases h
           rename_i heq
           first
           | exact checkTxProve_error_ne_ok env hd p bd false _ heq
           | exact ih _ _ heq)
        | (cases h
           simp)
        | cases h
        | (rename_i heq
           first
           | exact checkTxProve_error_ne_ok env hd p bd false _ heq
           | exact ih _ _ heq)
        | simp at h

/-- C7: an accepting `CheckProveCoinbaseTx` run (COINBASE or MERKLETREE
prove) recomputes the stored branch header merkle root from the ordered
deserialized transaction list without mutation, and the coinbase pays
exactly the fees summed (by `sumFees`, via
`CheckTransactionProveWithProveData`) over all transactions after the
coinbase and the stake tx. -/
theorem c7_prove_coinbase_merkle_and_fees (env : Env) (db : BranchDbData) (tx : Tx)
    (h : CheckProveCoinbaseTx env db tx = ChkResult.ok) :
    ∃ pd bd, tx.pProveData = some pd
      ∧ lookupKV (db.GetBranchData pd.branchId).mapHeads pd.blockHash = some bd
      ∧ (merkleRootMut env (pd.vtxData.map env.getHashB)).1 = bd.header.hashMerkleRoot
      ∧ (merkleRootMut env (pd.vtxData.map env.getHashB)).2 = false
      ∧ ∃ totalFee,
          sumFees env (db.GetBranchData pd.branchId) (pd.vtxData.drop 2)
              pd.vecBlockTxProve
            = Except.ok totalFee
          ∧ (pd.vtxData.headD dummyBTx).GetValueOut = totalFee := by
  rcases hpd : tx.pProveData with _ | pd
  · simp [CheckProveCoinbaseTx, hpd] at h
  simp only [CheckProveCoinbaseTx] at h
  rw [hpd] at h
  dsimp only at h
  by_cases h1 : ¬tx.IsProve ∨ ¬(pd.provetype = ReportType.reportCoinbase
      ∨ pd.provetype = ReportType.reportMerkletree)
  case pos =>
    rw [if_pos h1] at h
    cases h
  rw [if_neg h1] at h
  by_cases h2 : db.HasBranchData pd.branchId
  case neg =>
    rw [if_pos h2] at h
    cases h
  rw [if_neg (not_not_intro h2)] at h
  rcases hbd : lookupKV (db.GetBranchData pd.branchId).mapHeads pd.blockHash with _ | bd
  · rw [hbd] at h
    dsimp only at h
    cases h
  rw [hbd] at h
  dsimp only at h
  by_cases h3 : pd.vtxData.length < 2
  case pos =>
    rw [if_pos h3] at h
    cases h
  rw [if_neg h3] at h
  by_cases h4 : pd.provetype = ReportType.reportCoinbase
      ∧ env.getHashB (pd.vtxData.headD dummyBTx) ≠ pd.txHash
  case pos =>
    rw [if_pos h4] at h
    cases h
  rw [if_neg h4] at h
  by_cases h5 : pd.provetype = ReportType.reportMerkletree ∧ pd.txHash ≠ nullHash
  case pos =>
    rw [if_pos h5] at h
    cases h
  rw [if_neg h5] at h
  by_cases h6 : bd.header.hashMerkleRoot
      = (merkleRootMut env (pd.vtxData.map env.getHashB)).1
  case neg =>
    rw [if_pos h6] at h
    cases h
  rw [if_neg (not_not_intro h6)] at h
  by_cases h7 : (merkleRootMut env (pd.vtxData.map env.getHashB)).2 = true
  case pos =>
    rw [if_pos h7] at h
    cases h
  rw [if_neg h7] at h
  by_cases h8 : pd.vtxData.length = pd.vecBlockTxProve.length + 2
  case neg =>
    rw [if_pos h8] at h
    cases h
  rw [if_neg (not_not_intro h8)] at h
  rcases hsf : sumFees env (db.GetBranchData pd.branchId) (pd.vtxData.drop 2)
      pd.vecBlockTxProve with e | tot
  · rw [hsf] at h
    dsimp only at h
    exact absurd h (sumFees_error_ne_ok env (db.GetBranchData pd.branchId) _ _ _ hsf)
  rw [hsf] at h
  dsimp only at h
  by_cases hfee : (pd.vtxData.headD dummyBTx).GetValueOut = tot
  case neg =>
    rw [if_pos hfee] at h
    cases h
  rw [if_neg (not_not_intro hfee)] at h
  exact ⟨pd, bd, rfl, hbd, h6.symm, by simpa using h7, tot, hsf, hfee⟩

/-- Concrete accepted prove-coinbase instance: a two-transaction block
(coinbase plus stake) whose hashes recombine to the stored merkle root and
whose coinbase pays the (empty) fee total of zero. -/
def c7Coinbase : BTx := { dummyBTx with txType := TxType.coinbase }

def c7Stake : BTx := { dummyBTx with vin := [nullTxIn] }

def c7BlockData : BranchBlockData :=
  { header := { hashMerkleRoot := [0, 1], hashMerkleRootWithPrevData := [],
                hashMerkleRootWithData := [], blockTime := 0 },
    nHeight := 0, pStakeTx := dummyBTx, mapReportStatus := [] }

def c7Db : BranchDbData :=
  { branches := [([8], { mapHeads := [([6], c7BlockData)] })] }

def c7ProveTx : Tx :=
  { dummyTx with
    txType := TxType.prove
    pProveData := some
      { provetype := ReportType.reportCoinbase
        branchId := [8]
        blockHash := [6]
        txHash := [0]
        vtxData := [c7Coinbase, c7Stake]
        vectProveData := []
        vecBlockTxProve := []
        contractData := none } }

/-- C7 witness: the sample prove-coinbase transaction is accepted, so the
merkle-root and fee facts hold for it. -/
theorem c7_witness :
    ∃ pd bd, c7ProveTx.pProveData = some pd
      ∧ lookupKV (c7Db.GetBranchData pd.branchId).mapHeads pd.blockHash = some bd
      ∧ (merkleRootMut baseEnv (pd.vtxData.map baseEnv.getHashB)).1
          = bd.header.hashMerkleRoot
      ∧ (merkleRootMut baseEnv (pd.vtxData.map baseEnv.getHashB)).2 = false
      ∧ ∃ totalFee,
          sumFees baseEnv (c7Db.GetBranchData pd.branchId) (pd.vtxData.drop 2)
              pd.vecBlockTxProve
            = Except.ok totalFee
          ∧ (pd.vtxData.headD dummyBTx).GetValueOut = totalFee :=
  c7_prove_coinbase_merkle_and_fees baseEnv c7Db c7ProveTx (by decide)
